import Mathlib

/-!
# Job Sphere: browser client, verification development

Shallow embedding of the client-side logic of `public/js/auth.js`,
`public/js/profile.js` and `public/js/main.js`.

* A JavaScript string is the list of its UTF-16 code units (`JSString`), so that
  `.length` and regular expressions without the `u` flag see what the browser sees.
* The DOM elements a function reads or writes are fields of a record that is passed in
  and returned.
* Host built-ins whose result depends on the browser (`toLowerCase`, `localeCompare`,
  `Date.parse`) are fields of `Host`; every theorem holds for all hosts.
-/

namespace JobSphere

/-! ## JavaScript strings -/

/-- A JavaScript string: its sequence of UTF-16 code units. -/
abbrev JSString := List Nat

/-- Code units of a string literal of the source (all literals used are in the BMP). -/
def lit (s : String) : JSString := s.toList.map Char.toNat

/-- Truthiness of a string value: only the empty string is falsy. -/
def truthy (s : JSString) : Bool := !s.isEmpty

/-- A regular-expression character class: a union of inclusive code-unit ranges. -/
abbrev CharClass := List (Nat × Nat)

/-- Membership of one code unit in a character class. -/
def CharClass.hasUnit (cls : CharClass) (c : Nat) : Bool :=
  cls.any (fun r => decide (r.1 ≤ c) && decide (c ≤ r.2))

/-- `/[cls]/.test(s)`: some code unit of `s` lies in the class. -/
def CharClass.test (cls : CharClass) (s : JSString) : Bool :=
  s.any cls.hasUnit

/-- The class `[A-Z]`. -/
def upperClass : CharClass := [('A'.toNat, 'Z'.toNat)]

/-- The class `[a-z]`. -/
def lowerClass : CharClass := [('a'.toNat, 'z'.toNat)]

/-- The class `\d`, which without the `u` flag is `[0-9]`. -/
def digitClass : CharClass := [('0'.toNat, '9'.toNat)]

/-- The characters listed in the class `[!@#$%^&*(),.?":{}|<>]`. -/
def specialChars : JSString := lit "!@#$%^&*(),.?\":\x7b\x7d|<>"

/-- The class `[!@#$%^&*(),.?":{}|<>]`: one singleton range per listed character. -/
def specialClass : CharClass := specialChars.map (fun c => (c, c))

/-! ## Password policy (`auth.js`, `profile.js`) -/

/-- The five requirement indicators a validator updates through `updateRequirement`
(`true` = the element carries the class `valid`). -/
structure Requirements where
  length : Bool
  uppercase : Bool
  lowercase : Bool
  number : Bool
  special : Bool
deriving DecidableEq, Repr

/-- The part of the signup / reset page a password validator touches: the password
input, the submit button and the requirement indicators. -/
structure PasswordForm where
  password : JSString
  submitDisabled : Bool
  reqs : Requirements
deriving DecidableEq, Repr

/-- `validateSignupPassword` of `auth.js`: the updated page and the returned verdict. -/
def validateSignupPassword (f : PasswordForm) : PasswordForm × Bool :=
  let password := f.password
  let hasLength := decide (password.length ≥ 8)
  let hasUppercase := upperClass.test password
  let hasLowercase := lowerClass.test password
  let hasNumber := digitClass.test password
  let hasSpecial := specialClass.test password
  let reqs : Requirements := ⟨hasLength, hasUppercase, hasLowercase, hasNumber, hasSpecial⟩
  let allValid := hasLength && hasUppercase && hasLowercase && hasNumber && hasSpecial
  ({ f with reqs := reqs, submitDisabled := !allValid }, allValid)

/-- `validateResetPassword` of `auth.js`: the updated page and the returned verdict. -/
def validateResetPassword (f : PasswordForm) : PasswordForm × Bool :=
  let password := f.password
  let hasLength := decide (password.length ≥ 8)
  let hasUppercase := upperClass.test password
  let hasLowercase := lowerClass.test password
  let hasNumber := digitClass.test password
  let hasSpecial := specialClass.test password
  let reqs : Requirements := ⟨hasLength, hasUppercase, hasLowercase, hasNumber, hasSpecial⟩
  let allValid := hasLength && hasUppercase && hasLowercase && hasNumber && hasSpecial
  ({ f with reqs := reqs, submitDisabled := !allValid }, allValid)

/-- The part of the profile page `validateProfilePassword` touches: the new-password
input, the visibility of the requirements box and the requirement indicators. -/
structure ProfileForm where
  password : JSString
  requirementsShown : Bool
  reqs : Requirements
deriving DecidableEq, Repr

/-- `validateProfilePassword` of `profile.js`: an empty input hides the requirements
box and is accepted; otherwise the five checks of the other two validators. -/
def validateProfilePassword (f : ProfileForm) : ProfileForm × Bool :=
  let password := f.password
  if !truthy password then
    ({ f with requirementsShown := false }, true)
  else
    let hasLength := decide (password.length ≥ 8)
    let hasUppercase := upperClass.test password
    let hasLowercase := lowerClass.test password
    let hasNumber := digitClass.test password
    let hasSpecial := specialClass.test password
    let reqs : Requirements := ⟨hasLength, hasUppercase, hasLowercase, hasNumber, hasSpecial⟩
    ({ f with requirementsShown := true, reqs := reqs },
      hasLength && hasUppercase && hasLowercase && hasNumber && hasSpecial)

/-- A password satisfies the policy as the specification words it: at least eight code
units, and at least one upper-case letter, lower-case letter, digit and listed
punctuation character. -/
def MeetsPolicy (p : JSString) : Prop :=
  8 ≤ p.length ∧
  (∃ c ∈ p, 'A'.toNat ≤ c ∧ c ≤ 'Z'.toNat) ∧
  (∃ c ∈ p, 'a'.toNat ≤ c ∧ c ≤ 'z'.toNat) ∧
  (∃ c ∈ p, '0'.toNat ≤ c ∧ c ≤ '9'.toNat) ∧
  (∃ c ∈ p, c ∈ specialChars)

/-! ## Host built-ins used by `main.js` -/

/-- The browser built-ins whose result depends on the host: `String.prototype.toLowerCase`,
`String.prototype.localeCompare` (sign of the result matters) and `Date.parse`
(`none` = `NaN`, an Invalid Date). Lower-casing the empty string gives the empty string. -/
structure Host where
  toLowerCase : JSString → JSString
  localeCompare : JSString → JSString → Int
  dateParse : JSString → Option Int
  toLowerCase_nil : toLowerCase [] = []

/-- `s.includes(t)`: `t` occurs in `s` as a contiguous run of code units. -/
def includes (s t : JSString) : Bool :=
  s.tails.any (fun u => t.isPrefixOf u)

/-- The code units `String.prototype.trim` strips: WhiteSpace and LineTerminator of
ECMAScript (TAB, LF, VT, FF, CR, SP, NBSP, U+1680, U+2000..U+200A, LS, PS, U+202F,
U+205F, U+3000, BOM). -/
def isWhiteSpace (c : Nat) : Bool :=
  (decide (9 ≤ c) && decide (c ≤ 13)) || c == 32 || c == 160 || c == 5760 ||
  (decide (8192 ≤ c) && decide (c ≤ 8202)) || c == 8232 || c == 8233 || c == 8239 ||
  c == 8287 || c == 12288 || c == 65279

/-- `s.trim()`: `s` without its leading and trailing white space. -/
def trim (s : JSString) : JSString :=
  ((s.dropWhile isWhiteSpace).reverse.dropWhile isWhiteSpace).reverse

/-! ## Data model of `main.js` -/

/-- The `posted_date` property of a listing as it arrives in the JSON reply. -/
inductive DateField where
  | undefined
  | null
  | str (s : JSString)
deriving DecidableEq, Repr

/-- A job listing of the search reply. -/
structure Job where
  source : JSString
  title : JSString
  company : JSString
  location : JSString
  posted_date : DateField
  employment_type : JSString
  salary : Option JSString
  description : JSString
  apply_link : JSString
deriving DecidableEq, Repr

/-- Content of the element `results-container`. -/
inductive Container where
  | empty
  | noMatch
  | cards (jobs : List Job)
deriving DecidableEq, Repr

/-- Text of the element `results-count`. -/
inductive CountLabel where
  | blank
  | found (count : Nat)
  | ofTotal (count total : Nat)
deriving DecidableEq, Repr

/-- A network request issued by the page. -/
inductive Request where
  | search (query location source : JSString)
  | stats
deriving DecidableEq, Repr

/-- The body of the reply of `POST /api/search`. -/
structure SearchData where
  success : Bool
  jobs : List Job
  message : Option JSString
deriving DecidableEq, Repr

/-- What the awaited `fetch` / `response.json()` of `searchJobs` produces. -/
inductive SearchReply where
  | transportFailure
  | json (data : SearchData)
deriving DecidableEq, Repr

/-- The state of the page `index.html` that `main.js` reads and writes.

Arrays are objects: `heap` maps a reference to the elements of the array stored there,
`nextRef` is the first unused reference, and the globals `allJobs` and `filteredJobs`
hold references. The remaining fields are the DOM: the inputs the user edits, the
elements the script writes, and a log of the requests issued. -/
structure Page where
  heap : Nat → List Job
  nextRef : Nat
  allJobs : Nat
  filteredJobs : Nat
  jobQuery : JSString
  jobLocation : JSString
  jobSource : JSString
  sortBy : JSString
  filterType : JSString
  filterCompany : JSString
  loadingShown : Bool
  controlsShown : Bool
  errorMessage : Option JSString
  container : Container
  resultsCount : CountLabel
  requests : List Request

/-- The elements of the array the global `allJobs` refers to. -/
def Page.all (s : Page) : List Job := s.heap s.allJobs

/-- The elements of the array the global `filteredJobs` refers to. -/
def Page.filtered (s : Page) : List Job := s.heap s.filteredJobs

/-- A new array object holding `xs`; returns its reference. -/
def Page.alloc (s : Page) (xs : List Job) : Nat × Page :=
  (s.nextRef, { s with heap := Function.update s.heap s.nextRef xs, nextRef := s.nextRef + 1 })

/-- The assignment `filteredJobs = <new array holding xs>` (an array literal, a spread
copy or the result of `filter`). -/
def Page.assignFiltered (s : Page) (xs : List Job) : Page :=
  let (r, s1) := s.alloc xs
  { s1 with filteredJobs := r }

/-- The assignment `allJobs = <new array holding xs>` (the array of the parsed reply). -/
def Page.assignAll (s : Page) (xs : List Job) : Page :=
  let (r, s1) := s.alloc xs
  { s1 with allJobs := r }

/-- The page after the script has loaded: `let allJobs = []; let filteredJobs = [];`
are two distinct empty arrays, nothing is shown and nothing was requested. -/
def Page.initial : Page where
  heap := fun _ => []
  nextRef := 2
  allJobs := 0
  filteredJobs := 1
  jobQuery := []
  jobLocation := []
  jobSource := []
  sortBy := []
  filterType := []
  filterCompany := []
  loadingShown := false
  controlsShown := false
  errorMessage := none
  container := Container.empty
  resultsCount := CountLabel.blank
  requests := []

/-! ## Operations of `main.js` -/

/-- `showError(message)`: the error element shows `message` (the timer that hides it
five seconds later is not modelled). -/
def showError (s : Page) (message : JSString) : Page :=
  { s with errorMessage := some message }

/-- `displayJobs(jobs)`: the container shows a notice when `jobs` is empty and one card
per listing otherwise. -/
def displayJobs (s : Page) (jobs : List Job) : Page :=
  if jobs.length = 0 then { s with container := Container.noMatch }
  else { s with container := Container.cards jobs }

/-- `updateResultsCount()`. -/
def updateResultsCount (s : Page) : Page :=
  let count := s.filtered.length
  let total := s.all.length
  { s with resultsCount := if count = total then CountLabel.found count
                           else CountLabel.ofTotal count total }

/-- `updateAPICounter()`: requests `/api/stats`; its reply only changes the counter
text, which is not part of `Page`. -/
def updateAPICounter (s : Page) : Page :=
  { s with requests := s.requests ++ [Request.stats] }

/-- The time value of `new Date(v)`: `new Date(undefined)` is invalid, `new Date(null)`
is the epoch, a string is parsed by the host. -/
def newDate (h : Host) : DateField → Option Int
  | DateField.undefined => none
  | DateField.null => some 0
  | DateField.str s => h.dateParse s

/-- The difference `x - y` of two dates: `NaN` (`none`) when either is invalid. -/
def dateDiff (x y : Option Int) : Option Int :=
  match x, y with
  | some a, some b => some (a - b)
  | _, _ => none

/-- The comparator passed to `filteredJobs.sort` in `sortJobs` (`none` = `NaN`). -/
def compareJobs (h : Host) (sortBy : JSString) (a b : Job) : Option Int :=
  if sortBy = lit "date-desc" then
    dateDiff (newDate h b.posted_date) (newDate h a.posted_date)
  else if sortBy = lit "date-asc" then
    dateDiff (newDate h a.posted_date) (newDate h b.posted_date)
  else if sortBy = lit "title-asc" then
    some (h.localeCompare a.title b.title)
  else if sortBy = lit "title-desc" then
    some (h.localeCompare b.title a.title)
  else
    some 0

/-- The order `Array.prototype.sort` derives from a comparator: a `NaN` result counts
as `+0`, and `a` may stay in front of `b` when the result is not positive. -/
def sortLE (h : Host) (sortBy : JSString) (a b : Job) : Prop :=
  (compareJobs h sortBy a b).getD 0 ≤ 0

instance (h : Host) (sortBy : JSString) : DecidableRel (sortLE h sortBy) :=
  fun a b => inferInstanceAs (Decidable ((compareJobs h sortBy a b).getD 0 ≤ 0))

/-- `Array.prototype.sort(comparator)`: a stable sort (ECMAScript 2019), here by
insertion. For a consistent comparator every stable sort gives this order. When the
comparator returns `NaN` for some pairs (an Invalid Date under `date-desc` or
`date-asc`) ECMAScript leaves the order to the engine, and this definition fixes one
such order; the theorems below use only that the result is a permutation, or sort
titles by a total order. -/
def arraySort (h : Host) (sortBy : JSString) (jobs : List Job) : List Job :=
  jobs.insertionSort (sortLE h sortBy)

/-- `filteredJobs.sort(...)`: sorts, in place, the array `filteredJobs` refers to. -/
def Page.sortFiltered (h : Host) (s : Page) : Page :=
  { s with heap := Function.update s.heap s.filteredJobs (arraySort h s.sortBy s.filtered) }

/-- The callback of `allJobs.filter` in `filterJobs`, with both filter values already
lower-cased. -/
def matchesFilters (h : Host) (typeFilter companyFilter : JSString) (job : Job) : Bool :=
  let matchesType := !truthy typeFilter || includes (h.toLowerCase job.employment_type) typeFilter
  let matchesCompany := !truthy companyFilter || includes (h.toLowerCase job.company) companyFilter
  matchesType && matchesCompany

/-- How a call of `sortJobs` / `filterJobs` ends: it returns after rendering, or the
call stack is exhausted (`RangeError`, not caught by anyone) in the page state `s`. -/
inductive Outcome where
  | rendered (s : Page)
  | overflow (s : Page)

/-- The page a call leaves behind, whichever way it ended. -/
def Outcome.page : Outcome → Page
  | Outcome.rendered s => s
  | Outcome.overflow s => s

/-- Whether the call returned normally. -/
def Outcome.isRendered : Outcome → Bool
  | Outcome.rendered _ => true
  | Outcome.overflow _ => false

mutual

/-- `sortJobs()`. The first argument is the number of stack frames still available:
each call of `sortJobs` or `filterJobs` takes one. -/
def sortJobs (h : Host) : Nat → Page → Outcome
  | 0, s => Outcome.overflow s
  | fuel + 1, s =>
    let sortBy := s.sortBy
    if !truthy sortBy then
      filterJobs h fuel (s.assignFiltered s.all)
    else
      filterJobs h fuel (s.sortFiltered h)

/-- `filterJobs()`. The first argument is the number of stack frames still available. -/
def filterJobs (h : Host) : Nat → Page → Outcome
  | 0, s => Outcome.overflow s
  | fuel + 1, s =>
    let typeFilter := h.toLowerCase s.filterType
    let companyFilter := h.toLowerCase s.filterCompany
    let s2 := s.assignFiltered (s.all.filter (matchesFilters h typeFilter companyFilter))
    let sortBy := s2.sortBy
    if truthy sortBy then
      sortJobs h fuel s2
    else
      Outcome.rendered (updateResultsCount (displayJobs s2 s2.filtered))

end

/-- `data.message || fallback`. -/
def messageOr (message : Option JSString) (fallback : JSString) : JSString :=
  match message with
  | some m => if truthy m then m else fallback
  | none => fallback

/-- `searchJobs()`, with the outcome of the awaited request as an argument. -/
def searchJobs (reply : SearchReply) (s : Page) : Page :=
  let query := trim s.jobQuery
  let location := trim s.jobLocation
  let source := s.jobSource
  if !truthy query then
    showError s (lit "Please enter a job title or keyword")
  else
    let s := { s with loadingShown := true, errorMessage := none,
                      container := Container.empty, controlsShown := false }
    let s := { s with requests := s.requests ++ [Request.search query location source] }
    match reply with
    | SearchReply.transportFailure =>
      showError { s with loadingShown := false }
        (lit "Network error. Please check your connection.")
    | SearchReply.json data =>
      let s := { s with loadingShown := false }
      let s :=
        if data.success then
          let s := s.assignAll data.jobs
          let s := s.assignFiltered s.all
          let s :=
            if s.all.length = 0 then
              showError s (lit "No jobs found. Try different keywords or location.")
            else
              updateResultsCount { displayJobs s s.filtered with controlsShown := true }
          match data.message with
          | some m => if truthy m then showError s m else s
          | none => s
        else
          showError s (messageOr data.message (lit "An error occurred while searching"))
      updateAPICounter s

/-! ## Specification-side definitions for the listing pipeline -/

/-- The filter state: the current values of the two filter inputs. -/
structure FilterState where
  employmentTypeSubstring : JSString
  companySubstring : JSString
deriving DecidableEq, Repr

/-- The filter state of a page. -/
def Page.filterState (s : Page) : FilterState := ⟨s.filterType, s.filterCompany⟩

/-- The filter predicate as the specification words it: each substring is empty or
occurs, case-insensitively, in the corresponding property of the listing. -/
def Satisfies (h : Host) (f : FilterState) (job : Job) : Prop :=
  (f.employmentTypeSubstring = [] ∨
    h.toLowerCase f.employmentTypeSubstring <:+: h.toLowerCase job.employment_type) ∧
  (f.companySubstring = [] ∨
    h.toLowerCase f.companySubstring <:+: h.toLowerCase job.company)

instance (h : Host) (f : FilterState) : DecidablePred (Satisfies h f) :=
  fun _ => inferInstanceAs (Decidable (_ ∧ _))

/-- The listings of `jobs` that satisfy `f`, in their order in `jobs`. -/
def applyFilter (h : Host) (f : FilterState) (jobs : List Job) : List Job :=
  jobs.filter (fun job => decide (Satisfies h f job))

/-- The references of a page are sound: both globals refer to allocated arrays, and to
different ones. -/
def Page.WellFormed (s : Page) : Prop :=
  s.allJobs < s.nextRef ∧ s.filteredJobs < s.nextRef ∧ s.allJobs ≠ s.filteredJobs

instance (s : Page) : Decidable s.WellFormed :=
  inferInstanceAs (Decidable (_ ∧ _ ∧ _))

/-- What the user can do between two handler calls: edit the input elements. -/
def Page.withInputs (s : Page) (jobQuery jobLocation jobSource sortBy filterType
    filterCompany : JSString) : Page :=
  { s with jobQuery := jobQuery, jobLocation := jobLocation, jobSource := jobSource,
           sortBy := sortBy, filterType := filterType, filterCompany := filterCompany }

/-- The states the page can be in: from the initial state, any sequence of input
edits, searches (with any reply), and calls of `filterJobs` and `sortJobs` (with any
stack depth, returned or aborted). -/
inductive Reachable (h : Host) : Page → Prop where
  | initial : Reachable h Page.initial
  | input {s : Page} (q l src sortBy ft fc : JSString) :
      Reachable h s → Reachable h (s.withInputs q l src sortBy ft fc)
  | search {s : Page} (reply : SearchReply) :
      Reachable h s → Reachable h (searchJobs reply s)
  | filter {s : Page} (fuel : Nat) :
      Reachable h s → Reachable h (filterJobs h fuel s).page
  | sort {s : Page} (fuel : Nat) :
      Reachable h s → Reachable h (sortJobs h fuel s).page

/-- What the listing pipeline maintains: sound references, and `filteredJobs` holds
listings of `allJobs`, each at most as often as `allJobs` does. -/
def Page.Inv (s : Page) : Prop :=
  s.WellFormed ∧ s.filtered.Subperm s.all

/-- A host for examples: ASCII lower-casing, comparison of titles by code units, and
no recognised date format. -/
def asciiHost : Host where
  toLowerCase := fun s => s.map (fun c => if 65 ≤ c ∧ c ≤ 90 then c + 32 else c)
  localeCompare := fun a b => if a < b then -1 else if b < a then 1 else 0
  dateParse := fun _ => none
  toLowerCase_nil := rfl

/-- A listing for examples, given its title, company, employment type and date. -/
def sampleJob (title company employment_type : String) : Job where
  source := lit "JSearch"
  title := lit title
  company := lit company
  location := lit "Kigali"
  posted_date := DateField.str (lit "2024-05-01")
  employment_type := lit employment_type
  salary := none
  description := lit "..."
  apply_link := lit "https://example.org/apply"

/-- Three listings with the employment types of the end-to-end scenario. -/
def threeJobs : List Job :=
  [sampleJob "Developer" "Acme" "Full-time", sampleJob "Tester" "Bolt" "Part-time",
   sampleJob "Analyst" "Crux" "Full-time"]

/-- Two listings whose titles are not in ascending order. -/
def twoJobs : List Job :=
  [sampleJob "Tester" "Bolt" "Part-time", sampleJob "Analyst" "Crux" "Full-time"]

/-- The page after a first, successful search for `dev` that returned `jobs`. -/
def afterSearch (jobs : List Job) : Page :=
  searchJobs (SearchReply.json ⟨true, jobs, none⟩)
    (Page.initial.withInputs (lit "dev") [] [] [] [] [])

/-- The user sets the sort and filter controls and leaves the search inputs alone. -/
def Page.withControls (s : Page) (sortBy filterType filterCompany : JSString) : Page :=
  s.withInputs s.jobQuery s.jobLocation s.jobSource sortBy filterType filterCompany

/-- The end-to-end scenario: the search returned `threeJobs` and the user has entered
`full` as the employment-type filter. -/
def fullTimePage : Page := (afterSearch threeJobs).withControls [] (lit "full") []

/-- The search returned `twoJobs` and the user has selected the sort key `title-asc`. -/
def titleAscPage : Page := (afterSearch twoJobs).withControls (lit "title-asc") [] []

/-- The end-to-end scenario continued: `filterJobs` has run on `fullTimePage`, and a
second search, with `full` still in the filter input, returned `threeJobs` again. -/
def searchedAgain : Page :=
  searchJobs (SearchReply.json ⟨true, threeJobs, none⟩) (filterJobs asciiHost 1 fullTimePage).page

/-! ## Form submission (`auth.js`) -/

instance : DecidablePred MeetsPolicy :=
  fun _ => inferInstanceAs (Decidable (_ ∧ _ ∧ _ ∧ _ ∧ _))

/-- A request issued by the signup page or by the reset form of the login page. -/
inductive AuthRequest where
  | signup (username email password : JSString)
  | resetPassword (email code new_password : JSString)
deriving DecidableEq, Repr

/-- The body of the reply of `/api/signup` and `/api/reset-password`. -/
structure AuthData where
  success : Bool
  message : Option JSString
deriving DecidableEq, Repr

/-- What the awaited `fetch` / `response.json()` of a submit handler produces. -/
inductive AuthReply where
  | transportFailure
  | json (data : AuthData)
deriving DecidableEq, Repr

/-- The state of `signup.html`: the password input with its button and indicators
(`form`), the other inputs, the text shown in `error-message` (`none` = hidden), the
page navigated to, and the requests issued. -/
structure SignupPage where
  form : PasswordForm
  username : JSString
  email : JSString
  confirmPassword : JSString
  errorMessage : Option JSString
  navigatedTo : Option JSString
  requests : List AuthRequest
deriving DecidableEq, Repr

/-- `handleSignup(e)`, with the outcome of the awaited request as an argument. -/
def handleSignup (reply : AuthReply) (p : SignupPage) : SignupPage :=
  let username := p.username
  let email := p.email
  let password := p.form.password
  let confirmPassword := p.confirmPassword
  let (form, valid) := validateSignupPassword p.form
  let p := { p with form := form }
  if !valid then
    { p with errorMessage := some (lit "Password does not meet requirements") }
  else if password ≠ confirmPassword then
    { p with errorMessage := some (lit "Passwords do not match") }
  else
    let p := { p with requests := p.requests ++ [AuthRequest.signup username email password] }
    match reply with
    | AuthReply.transportFailure =>
      { p with errorMessage := some (lit "Network error. Please try again.") }
    | AuthReply.json data =>
      if data.success then
        { p with navigatedTo := some (lit "index.html") }
      else
        { p with errorMessage := some (data.message.getD []) }

/-- The state of the reset form of `login.html`: the new-password input with its button
and indicators (`form`), the code and confirmation inputs, the module variable
`resetEmail`, the text shown in `reset-message` with its class (`true` =
`success-message`), and the requests issued. -/
structure ResetPage where
  form : PasswordForm
  code : JSString
  confirmPassword : JSString
  resetEmail : JSString
  message : Option (JSString × Bool)
  requests : List AuthRequest
deriving DecidableEq, Repr

/-- `handleResetPassword(e)`, with the outcome of the awaited request as an argument
(the timer that shows the login form two seconds after a success is not modelled). -/
def handleResetPassword (reply : AuthReply) (p : ResetPage) : ResetPage :=
  let code := p.code
  let newPassword := p.form.password
  let confirmPassword := p.confirmPassword
  let (form, valid) := validateResetPassword p.form
  let p := { p with form := form }
  if !valid then
    { p with message := some (lit "Password does not meet requirements", false) }
  else if newPassword ≠ confirmPassword then
    { p with message := some (lit "Passwords do not match", false) }
  else
    let p := { p with
      requests := p.requests ++ [AuthRequest.resetPassword p.resetEmail code newPassword] }
    match reply with
    | AuthReply.transportFailure =>
      { p with message := some (lit "Network error. Please try again.", false) }
    | AuthReply.json data =>
      if data.success then
        { p with message := some (lit "Password reset successful! Redirecting to login...", true) }
      else
        { p with message := some (data.message.getD [], false) }

/-- A filled-in signup page for examples. -/
def sampleSignup (password confirmPassword : String) : SignupPage where
  form := ⟨lit password, true, ⟨false, false, false, false, false⟩⟩
  username := lit "amina"
  email := lit "amina@example.org"
  confirmPassword := lit confirmPassword
  errorMessage := none
  navigatedTo := none
  requests := []

/-- A filled-in reset form for examples. -/
def sampleReset (password confirmPassword : String) : ResetPage where
  form := ⟨lit password, true, ⟨false, false, false, false, false⟩⟩
  code := lit "123456"
  confirmPassword := lit confirmPassword
  resetEmail := lit "amina@example.org"
  message := none
  requests := []

/-- The user fills in the password and its confirmation on the signup page. -/
def SignupPage.withPasswords (p : SignupPage) (password confirmPassword : JSString) :
    SignupPage :=
  { p with form := { p.form with password := password }, confirmPassword := confirmPassword }

/-- The user fills in the new password and its confirmation on the reset form. -/
def ResetPage.withPasswords (p : ResetPage) (password confirmPassword : JSString) :
    ResetPage :=
  { p with form := { p.form with password := password }, confirmPassword := confirmPassword }

/-! ## Date labels (`formatDate` of `main.js`) -/

/-- Truthiness of a `posted_date` value: `undefined`, `null` and the empty string are
falsy. -/
def DateField.truthy : DateField → Bool
  | DateField.undefined => false
  | DateField.null => false
  | DateField.str s => JobSphere.truthy s

/-- `Math.ceil(Math.abs(now - date) / (1000 * 60 * 60 * 24))` for the current time `now`
and the time value of `date`, both in milliseconds; `none` is `NaN`, the result for an
Invalid Date. Time values are integers below `2 ^ 53`, on which the subtraction is exact
and the rounded quotient has the ceiling of the exact one. -/
def diffDays (now : Int) (date : Option Int) : Option Nat :=
  match date with
  | none => none
  | some t => some ⌈((now - t).natAbs : ℚ) / (1000 * 60 * 60 * 24)⌉₊

/-- `date.toLocaleDateString()`: the text `Invalid Date` for an Invalid Date, and the
rendering of the host's locale (`localeDate`) otherwise. -/
def toLocaleDateString (localeDate : Int → JSString) : Option Int → JSString
  | none => lit "Invalid Date"
  | some t => localeDate t

/-- `formatDate(dateString)`, for the current time `now`. The `Date` constructor never
throws, so the `catch` branch of the source is not reachable; every comparison of `NaN`
is false, so an Invalid Date falls through to `toLocaleDateString`. -/
def formatDate (h : Host) (localeDate : Int → JSString) (now : Int)
    (dateString : DateField) : JSString :=
  if !dateString.truthy || dateString == DateField.str (lit "N/A") then lit "Recently"
  else
    let date := newDate h dateString
    match diffDays now date with
    | none => toLocaleDateString localeDate date
    | some diffDays =>
      if diffDays = 0 then lit "Today"
      else if diffDays = 1 then lit "Yesterday"
      else if diffDays < 7 then lit (toString diffDays) ++ lit " days ago"
      else if diffDays < 30 then lit (toString (diffDays / 7)) ++ lit " weeks ago"
      else toLocaleDateString localeDate date

/-! ### A host that reads ISO dates, for examples -/

/-- The number written by a string of decimal digits. -/
def digitsToNat (s : JSString) : Option Nat :=
  s.foldl
    (fun acc c =>
      match acc with
      | some n => if 48 ≤ c ∧ c ≤ 57 then some (10 * n + (c - 48)) else none
      | none => none)
    (some 0)

/-- The number written by the `n` digits of `s` that start at position `i`. -/
def digitsAt (s : JSString) (i n : Nat) : Option Nat :=
  digitsToNat ((s.drop i).take n)

/-- Days of the month `m` of the year `y` (Gregorian). -/
def daysInMonth (y m : Nat) : Nat :=
  if m = 2 then (if y % 4 = 0 ∧ (y % 100 ≠ 0 ∨ y % 400 = 0) then 29 else 28)
  else if m = 4 ∨ m = 6 ∨ m = 9 ∨ m = 11 then 30
  else 31

/-- Days from 1970-01-01 to the day `d` of the month `m` of the year `y ≥ 1`. -/
def daysFromCivil (y m d : Nat) : Int :=
  let y1 := if m ≤ 2 then y - 1 else y
  let era := y1 / 400
  let yoe := y1 % 400
  let mp := (m + 9) % 12
  let doy := (153 * mp + 2) / 5 + d - 1
  let doe := yoe * 365 + yoe / 4 - yoe / 100 + doy
  ((era * 146097 + doe : Nat) : Int) - 719468

/-- `Date.parse` on the two forms `YYYY-MM-DD` and `YYYY-MM-DDTHH:mm:ss.sssZ` of the
ECMAScript date-time format (both UTC); every other string is not recognised. -/
def isoDateParse (s : JSString) : Option Int :=
  if s.length = 10 ∨ s.length = 24 then
    if s.getD 4 0 = 45 ∧ s.getD 7 0 = 45 then do
      let y ← digitsAt s 0 4
      let m ← digitsAt s 5 2
      let d ← digitsAt s 8 2
      if 1 ≤ y ∧ 1 ≤ m ∧ m ≤ 12 ∧ 1 ≤ d ∧ d ≤ daysInMonth y m then
        if s.length = 10 then
          some (daysFromCivil y m d * 86400000)
        else if s.getD 10 0 = 84 ∧ s.getD 13 0 = 58 ∧ s.getD 16 0 = 58 ∧ s.getD 19 0 = 46 ∧
            s.getD 23 0 = 90 then do
          let hh ← digitsAt s 11 2
          let mm ← digitsAt s 14 2
          let ss ← digitsAt s 17 2
          let ms ← digitsAt s 20 3
          if hh ≤ 23 ∧ mm ≤ 59 ∧ ss ≤ 59 then
            some (daysFromCivil y m d * 86400000 +
              (((hh * 60 + mm) * 60 + ss) * 1000 + ms : Nat))
          else none
        else none
      else none
    else none
  else none

/-- The civil date (year, month, day) of the day `z` days after 1970-01-01, for days
from 0000-03-01 on. -/
def civilFromDays (z : Int) : Nat × Nat × Nat :=
  let n := (z + 719468).toNat
  let era := n / 146097
  let doe := n % 146097
  let yoe := (doe - doe / 1460 + doe / 36524 - doe / 146096) / 365
  let doy := doe - (365 * yoe + yoe / 4 - yoe / 100)
  let mp := (5 * doy + 2) / 153
  let d := doy - (153 * mp + 2) / 5 + 1
  let m := if mp < 10 then mp + 3 else mp - 9
  let y := yoe + era * 400 + (if m ≤ 2 then 1 else 0)
  (y, m, d)

/-- `toLocaleDateString()` of the locale `en-US` in the time zone UTC: `M/D/YYYY`. -/
def usLocaleDate (t : Int) : JSString :=
  let (y, m, d) := civilFromDays (t / 86400000)
  lit (toString m) ++ lit "/" ++ lit (toString d) ++ lit "/" ++ lit (toString y)

/-- A host for examples: `asciiHost` with `Date.parse` reading the ISO forms. -/
def isoHost : Host where
  toLowerCase := asciiHost.toLowerCase
  localeCompare := asciiHost.localeCompare
  dateParse := isoDateParse
  toLowerCase_nil := rfl

/-! ## Job cards (`escapeHtml`, `createJobCard` of `main.js`) -/

/-- How the HTML fragment serialisation writes one code unit of a text node: `&`, the
no-break space, `<` and `>` become character references, every other code unit,
the double quote included, is written as it is. -/
def escapeUnit (c : Nat) : JSString :=
  if c = 38 then lit "&amp;"
  else if c = 160 then lit "&nbsp;"
  else if c = 60 then lit "&lt;"
  else if c = 62 then lit "&gt;"
  else [c]

/-- `escapeHtml(text)` on a string: the `innerHTML` of an element whose `textContent`
is `text`. -/
def escapeHtml (text : JSString) : JSString :=
  if !truthy text then []
  else (text.map escapeUnit).flatten

/-- A piece of the markup of a card: text of the template literal of `createJobCard`,
or the value of one of its placeholders. -/
inductive Chunk where
  | template (s : JSString)
  | inserted (s : JSString)
deriving DecidableEq, Repr

/-- The text of a piece. -/
def Chunk.text : Chunk → JSString
  | Chunk.template s => s
  | Chunk.inserted s => s

/-- The salary placeholder of the card: nothing when the salary is the string
`Not specified`, and a span around the escaped salary otherwise (`escapeHtml(null)` is
the empty string). -/
def salaryChunks (salary : Option JSString) : List Chunk :=
  match salary with
  | some sal =>
    if sal ≠ lit "Not specified" then
      [Chunk.template (lit "<span class=\"job-detail-item\"> ðŸ’Ž "),
       Chunk.inserted (escapeHtml sal), Chunk.template (lit "</span>")]
    else []
  | none =>
    [Chunk.template (lit "<span class=\"job-detail-item\"> ðŸ’Ž "),
     Chunk.inserted [], Chunk.template (lit "</span>")]

/-- The template literal of `createJobCard`, piece by piece, for the current time
`now`. -/
def cardChunks (h : Host) (localeDate : Int → JSString) (now : Int) (job : Job) :
    List Chunk :=
  [Chunk.template (lit "\n        <div class=\"job-source\">"),
   Chunk.inserted (escapeHtml job.source),
   Chunk.template (lit "</div>\n        <h3 class=\"job-title\">"),
   Chunk.inserted (escapeHtml job.title),
   Chunk.template (lit "</h3>\n        <div class=\"job-company\">"),
   Chunk.inserted (escapeHtml job.company),
   Chunk.template (lit "</div>\n        <div class=\"job-location\">"),
   Chunk.inserted (escapeHtml job.location),
   Chunk.template (lit ("</div>\n\n        <div class=\"job-details\">\n" ++
     "            <span class=\"job-detail-item\"> ðŸ“…")),
   Chunk.inserted (formatDate h localeDate now job.posted_date),
   Chunk.template (lit "</span>\n            <span class=\"job-detail-item\">ðŸ‘œ"),
   Chunk.inserted (escapeHtml job.employment_type),
   Chunk.template (lit "</span>\n            ")] ++
  salaryChunks job.salary ++
  [Chunk.template (lit "\n        </div>\n\n        <div class=\"job-description\">"),
   Chunk.inserted (escapeHtml job.description),
   Chunk.template (lit ("</div>\n\n        <div class=\"job-actions\">\n            " ++
     "<a href=\"")),
   Chunk.inserted (escapeHtml job.apply_link),
   Chunk.template (lit ("\" target=\"_blank\" class=\"apply-btn\">Apply Now</a>\n" ++
     "        </div>\n    "))]

/-- `createJobCard(job, index)`: the markup assigned to the `innerHTML` of the card. -/
def createJobCard (h : Host) (localeDate : Int → JSString) (now : Int) (job : Job) :
    JSString :=
  ((cardChunks h localeDate now job).map Chunk.text).flatten

/-- A listing whose apply link holds a double quote. -/
def quotedLinkJob : Job :=
  { sampleJob "Developer" "Acme" "Full-time" with
    apply_link := lit "https://example.org/\" onmouseover=\"alert(1)" }

/-! ## Notification preference (`settings.js`, `loadRecommendedJobs` of `main.js`) -/

/-- A value of the JSON reply. -/
inductive JSValue where
  | undefined
  | null
  | bool (b : Bool)
  | number (n : Int)
  | string (s : JSString)
deriving DecidableEq, Repr

/-- Truthiness: `undefined`, `null`, `false`, `0` and the empty string are falsy. -/
def JSValue.truthy : JSValue → Bool
  | JSValue.undefined => false
  | JSValue.null => false
  | JSValue.bool b => b
  | JSValue.number n => decide (n ≠ 0)
  | JSValue.string s => JobSphere.truthy s

/-- The comparison `v !== false`: false only for the boolean `false`. -/
def JSValue.strictNeFalse : JSValue → Bool
  | JSValue.bool false => false
  | _ => true

/-- The `user` object of the reply of `/api/check-session`; a missing property is
`undefined`. -/
structure User where
  username : JSString
  email : JSString
  dark_mode : JSValue
  notifications_enabled : JSValue
deriving DecidableEq, Repr

/-- The body of the reply of `/api/check-session`. -/
structure SessionData where
  authenticated : Bool
  user : Option User
deriving DecidableEq, Repr

/-- What the awaited `fetch` / `response.json()` of `checkAuthentication` produces. -/
inductive SessionReply where
  | transportFailure
  | json (data : SessionData)
deriving DecidableEq, Repr

/-- The state of `settings.html`: the global `currentUser`, the account texts, the two
toggles, the class `dark-mode` of the body, and the page navigated to. -/
structure SettingsPage where
  currentUser : Option User
  accountUsername : JSString
  accountEmail : JSString
  darkModeToggle : Bool
  notificationsToggle : Bool
  darkModeClass : Bool
  navigatedTo : Option JSString
deriving DecidableEq, Repr

/-- `checkAuthentication()` of `settings.js`, with the outcome of the awaited request as
an argument. A reply without a `user` makes the property access throw, which the
`catch` turns into the redirect. -/
def Settings.checkAuthentication (reply : SessionReply) (p : SettingsPage) : SettingsPage :=
  match reply with
  | SessionReply.transportFailure => { p with navigatedTo := some (lit "login.html") }
  | SessionReply.json data =>
    if !data.authenticated then
      { p with navigatedTo := some (lit "login.html") }
    else
      match data.user with
      | none => { p with currentUser := none, navigatedTo := some (lit "login.html") }
      | some currentUser =>
        { p with
          currentUser := some currentUser
          accountUsername := currentUser.username
          accountEmail := currentUser.email
          darkModeToggle := currentUser.dark_mode.truthy
          notificationsToggle := currentUser.notifications_enabled.strictNeFalse
          darkModeClass := currentUser.dark_mode.truthy }

/-- The body of the reply of `/api/recommended-jobs`. -/
structure RecommendedData where
  success : Bool
  jobs : Option (List Job)
  message : Option JSString
deriving DecidableEq, Repr

/-- What the awaited `fetch` / `response.json()` of `loadRecommendedJobs` produces. -/
inductive RecommendedReply where
  | transportFailure
  | json (data : RecommendedData)
deriving DecidableEq, Repr

/-- The part of `index.html` that `loadRecommendedJobs` reads and writes: the global
`currentUser`, the listings whose cards the recommended section shows (`none` = the
section is hidden), and the number of requests to `/api/recommended-jobs` issued. -/
structure HomeSession where
  currentUser : Option User
  recommended : Option (List Job)
  recommendedRequests : Nat
deriving DecidableEq, Repr

/-- `loadRecommendedJobs()`, with the outcome of the awaited request as an argument. -/
def loadRecommendedJobs (reply : RecommendedReply) (s : HomeSession) : HomeSession :=
  let enabled :=
    match s.currentUser with
    | none => false
    | some currentUser => currentUser.notifications_enabled.truthy
  if !enabled then s
  else
    let s := { s with recommendedRequests := s.recommendedRequests + 1 }
    match reply with
    | RecommendedReply.transportFailure => s
    | RecommendedReply.json data =>
      match data.jobs with
      | some jobs =>
        if data.success && decide (jobs.length > 0) then { s with recommended := some jobs }
        else s
      | none => s

/-- A user for examples, with the given value of `notifications_enabled`. -/
def sampleUser (notifications_enabled : JSValue) : User where
  username := lit "amina"
  email := lit "amina@example.org"
  dark_mode := JSValue.bool false
  notifications_enabled := notifications_enabled

/-- The settings page before `checkAuthentication` has run. -/
def SettingsPage.initial : SettingsPage where
  currentUser := none
  accountUsername := []
  accountEmail := []
  darkModeToggle := false
  notificationsToggle := false
  darkModeClass := false
  navigatedTo := none

/-! ## Password policy: lemmas -/

theorem CharClass.test_range (lo hi : Nat) (s : JSString) :
    CharClass.test [(lo, hi)] s = true ↔ ∃ c ∈ s, lo ≤ c ∧ c ≤ hi := by
  simp [CharClass.test, CharClass.hasUnit]

theorem specialClass_test (s : JSString) :
    specialClass.test s = true ↔ ∃ c ∈ s, c ∈ specialChars := by
  simp only [CharClass.test, CharClass.hasUnit, specialClass, List.any_eq_true,
    List.mem_map, Bool.and_eq_true, decide_eq_true_eq]
  constructor
  · rintro ⟨c, hc, r, ⟨d, hd, rfl⟩, h1, h2⟩
    exact ⟨c, hc, by rwa [show c = d from le_antisymm h2 h1]⟩
  · rintro ⟨c, hc, hs⟩
    exact ⟨c, hc, (c, c), ⟨c, hs, rfl⟩, le_refl c, le_refl c⟩

theorem specialChars_eq :
    specialChars =
      [33, 64, 35, 36, 37, 94, 38, 42, 40, 41, 44, 46, 63, 34, 58, 123, 125, 124, 60, 62] := by
  decide

theorem validateSignupPassword_verdict (f : PasswordForm) :
    (validateSignupPassword f).2 = true ↔ MeetsPolicy f.password := by
  simp only [validateSignupPassword, MeetsPolicy, Bool.and_eq_true, decide_eq_true_eq,
    upperClass, lowerClass, digitClass, CharClass.test_range, specialClass_test]
  tauto

theorem validateResetPassword_verdict (f : PasswordForm) :
    (validateResetPassword f).2 = true ↔ MeetsPolicy f.password := by
  simp only [validateResetPassword, MeetsPolicy, Bool.and_eq_true, decide_eq_true_eq,
    upperClass, lowerClass, digitClass, CharClass.test_range, specialClass_test]
  tauto

theorem validateProfilePassword_verdict (f : ProfileForm) (hp : f.password ≠ []) :
    (validateProfilePassword f).2 = true ↔ MeetsPolicy f.password := by
  have ht : truthy f.password = true := by
    cases hq : f.password with
    | nil => exact absurd hq hp
    | cons a l => rfl
  simp only [validateProfilePassword, ht, Bool.not_true, Bool.false_eq_true, if_false,
    MeetsPolicy, Bool.and_eq_true, decide_eq_true_eq,
    upperClass, lowerClass, digitClass, CharClass.test_range, specialClass_test]
  tauto

/-! ## Strings: lemmas -/

theorem includes_iff (s t : JSString) : includes s t = true ↔ t <:+: s := by
  simp only [includes, List.any_eq_true, List.mem_tails, List.isPrefixOf_iff_prefix]
  constructor
  · rintro ⟨u, hu, ht⟩
    exact List.infix_iff_prefix_suffix.mpr ⟨u, ht, hu⟩
  · intro hts
    obtain ⟨u, ht, hu⟩ := List.infix_iff_prefix_suffix.mp hts
    exact ⟨u, hu, ht⟩

theorem truthy_eq_false_iff (s : JSString) : truthy s = false ↔ s = [] := by
  cases s <;> simp [truthy]

theorem truthy_eq_true_iff (s : JSString) : truthy s = true ↔ s ≠ [] := by
  cases s <;> simp [truthy]

theorem trim_eq_nil_of_whiteSpace (s : JSString) (hs : ∀ c ∈ s, isWhiteSpace c = true) :
    trim s = [] := by
  have h1 : s.dropWhile isWhiteSpace = [] := List.dropWhile_eq_nil_iff.mpr hs
  simp [trim, h1]

/-! ## Heap: lemmas -/

theorem assignFiltered_filtered (s : Page) (xs : List Job) :
    (s.assignFiltered xs).filtered = xs := by
  simp [Page.assignFiltered, Page.alloc, Page.filtered]

theorem assignFiltered_all (s : Page) (xs : List Job) (hs : s.allJobs ≠ s.nextRef) :
    (s.assignFiltered xs).all = s.all := by
  simp [Page.assignFiltered, Page.alloc, Page.all, Function.update_noteq hs]

theorem assignFiltered_all_self (s : Page) : (s.assignFiltered s.all).all = s.all := by
  by_cases hs : s.allJobs = s.nextRef
  · simp [Page.assignFiltered, Page.alloc, Page.all, hs]
  · exact assignFiltered_all s s.all hs

theorem assignFiltered_wellFormed (s : Page) (xs : List Job) (hs : s.allJobs < s.nextRef) :
    (s.assignFiltered xs).WellFormed := by
  refine ⟨?_, ?_, ?_⟩
  · exact Nat.lt_succ_of_lt hs
  · exact Nat.lt_succ_self _
  · exact Nat.ne_of_lt hs

theorem assignAll_all (s : Page) (xs : List Job) : (s.assignAll xs).all = xs := by
  simp [Page.assignAll, Page.alloc, Page.all]

theorem assignAll_nextRef (s : Page) (xs : List Job) :
    (s.assignAll xs).allJobs < (s.assignAll xs).nextRef :=
  Nat.lt_succ_self _

theorem sortFiltered_filtered (h : Host) (s : Page) :
    (s.sortFiltered h).filtered = arraySort h s.sortBy s.filtered := by
  simp [Page.sortFiltered, Page.filtered]

theorem sortFiltered_all (h : Host) (s : Page) (hs : s.allJobs ≠ s.filteredJobs) :
    (s.sortFiltered h).all = s.all := by
  simp [Page.sortFiltered, Page.all, Function.update_noteq hs]

theorem arraySort_perm (h : Host) (k : JSString) (jobs : List Job) :
    (arraySort h k jobs).Perm jobs :=
  List.perm_insertionSort _ jobs

theorem sortFiltered_inv (h : Host) (s : Page) (hs : s.Inv) :
    (s.sortFiltered h).Inv ∧ (s.sortFiltered h).all = s.all := by
  obtain ⟨hw, hsub⟩ := hs
  have hall := sortFiltered_all h s hw.2.2
  refine ⟨⟨hw, ?_⟩, hall⟩
  rw [hall, sortFiltered_filtered]
  exact ((arraySort_perm h s.sortBy s.filtered).subperm_right).mpr hsub

theorem assignFiltered_inv (s : Page) (xs : List Job) (hs : s.WellFormed)
    (hx : xs.Subperm s.all) :
    (s.assignFiltered xs).Inv ∧ (s.assignFiltered xs).all = s.all := by
  have hall := assignFiltered_all s xs (Nat.ne_of_lt hs.1)
  refine ⟨⟨assignFiltered_wellFormed s xs hs.1, ?_⟩, hall⟩
  rw [hall, assignFiltered_filtered]
  exact hx

/-! ## Filter: lemmas -/

theorem matchesFilters_iff (h : Host) (f : FilterState) (job : Job) :
    matchesFilters h (h.toLowerCase f.employmentTypeSubstring)
      (h.toLowerCase f.companySubstring) job = true ↔ Satisfies h f job := by
  have key : ∀ raw field : JSString,
      ((!truthy (h.toLowerCase raw) || includes (h.toLowerCase field) (h.toLowerCase raw))
        = true) ↔ (raw = [] ∨ h.toLowerCase raw <:+: h.toLowerCase field) := by
    intro raw field
    rw [Bool.or_eq_true, Bool.not_eq_true', truthy_eq_false_iff, includes_iff]
    constructor
    · rintro (h0 | h1)
      · right
        rw [h0]
        exact List.nil_infix
      · exact Or.inr h1
    · rintro (h0 | h1)
      · left
        rw [h0]
        exact h.toLowerCase_nil
      · exact Or.inr h1
  simp only [matchesFilters, Satisfies, Bool.and_eq_true, key]

theorem filter_matchesFilters (h : Host) (s : Page) (jobs : List Job) :
    jobs.filter (matchesFilters h (h.toLowerCase s.filterType) (h.toLowerCase s.filterCompany))
      = applyFilter h s.filterState jobs := by
  unfold applyFilter
  congr 1
  funext job
  exact Bool.eq_iff_iff.mpr
    ((matchesFilters_iff h s.filterState job).trans (decide_eq_true_iff).symm)

theorem applyFilter_sublist (h : Host) (f : FilterState) (jobs : List Job) :
    (applyFilter h f jobs).Sublist jobs :=
  List.filter_sublist jobs

theorem mem_applyFilter (h : Host) (f : FilterState) (jobs : List Job) (job : Job) :
    job ∈ applyFilter h f jobs ↔ job ∈ jobs ∧ Satisfies h f job := by
  simp [applyFilter]

/-! ## Sort and filter: lemmas -/

theorem sortJobs_zero (h : Host) (s : Page) : sortJobs h 0 s = Outcome.overflow s := by
  rw [sortJobs]

theorem filterJobs_zero (h : Host) (s : Page) : filterJobs h 0 s = Outcome.overflow s := by
  rw [filterJobs]

theorem sortJobs_succ (h : Host) (n : Nat) (s : Page) :
    sortJobs h (n + 1) s =
      if truthy s.sortBy = true then filterJobs h n (s.sortFiltered h)
      else filterJobs h n (s.assignFiltered s.all) := by
  rw [sortJobs]
  cases truthy s.sortBy <;> simp

theorem filterJobs_succ (h : Host) (n : Nat) (s : Page) :
    filterJobs h (n + 1) s =
      if truthy s.sortBy = true then
        sortJobs h n (s.assignFiltered (applyFilter h s.filterState s.all))
      else
        Outcome.rendered (updateResultsCount
          (displayJobs (s.assignFiltered (applyFilter h s.filterState s.all))
            (applyFilter h s.filterState s.all))) := by
  rw [filterJobs]
  simp only [filter_matchesFilters, assignFiltered_filtered]
  rfl

/-- The fields of a page that rendering leaves alone. -/
theorem render_frame (s : Page) (jobs : List Job) :
    (updateResultsCount (displayJobs s jobs)).heap = s.heap ∧
    (updateResultsCount (displayJobs s jobs)).nextRef = s.nextRef ∧
    (updateResultsCount (displayJobs s jobs)).allJobs = s.allJobs ∧
    (updateResultsCount (displayJobs s jobs)).filteredJobs = s.filteredJobs ∧
    (updateResultsCount (displayJobs s jobs)).sortBy = s.sortBy ∧
    (updateResultsCount (displayJobs s jobs)).filterType = s.filterType ∧
    (updateResultsCount (displayJobs s jobs)).filterCompany = s.filterCompany ∧
    (updateResultsCount (displayJobs s jobs)).requests = s.requests := by
  unfold updateResultsCount displayJobs
  split <;> simp

theorem render_all (s : Page) (jobs : List Job) :
    (updateResultsCount (displayJobs s jobs)).all = s.all := by
  obtain ⟨h1, _, h3, _⟩ := render_frame s jobs
  simp only [Page.all, h1, h3]

theorem render_filtered (s : Page) (jobs : List Job) :
    (updateResultsCount (displayJobs s jobs)).filtered = s.filtered := by
  obtain ⟨h1, _, _, h4, _⟩ := render_frame s jobs
  simp only [Page.filtered, h1, h4]

theorem render_inv (s : Page) (jobs : List Job) (hs : s.Inv) :
    (updateResultsCount (displayJobs s jobs)).Inv := by
  obtain ⟨h1, h2, h3, h4, _⟩ := render_frame s jobs
  refine ⟨?_, ?_⟩
  · simp only [Page.WellFormed, h2, h3, h4]
    exact hs.1
  · rw [render_all, render_filtered]
    exact hs.2

/-- With a sort key selected, neither `sortJobs` nor `filterJobs` ever returns: each
calls the other until the stack is exhausted. -/
theorem never_renders_of_sortKey (h : Host) :
    ∀ (n : Nat) (s : Page), s.sortBy ≠ [] →
      (sortJobs h n s).isRendered = false ∧ (filterJobs h n s).isRendered = false := by
  intro n
  induction n with
  | zero =>
    intro s _
    rw [sortJobs_zero, filterJobs_zero]
    exact ⟨rfl, rfl⟩
  | succ n ih =>
    intro s hk
    have ht : truthy s.sortBy = true := (truthy_eq_true_iff _).mpr hk
    rw [sortJobs_succ, filterJobs_succ, if_pos ht, if_pos ht]
    exact ⟨(ih (s.sortFiltered h) hk).2, (ih (s.assignFiltered _) hk).1⟩

/-- The sort and filter inputs are only read by `sortJobs` and `filterJobs`. -/
theorem pipeline_inputs (h : Host) :
    ∀ (n : Nat) (s : Page),
      ((sortJobs h n s).page.sortBy = s.sortBy ∧
        (sortJobs h n s).page.filterType = s.filterType ∧
        (sortJobs h n s).page.filterCompany = s.filterCompany) ∧
      ((filterJobs h n s).page.sortBy = s.sortBy ∧
        (filterJobs h n s).page.filterType = s.filterType ∧
        (filterJobs h n s).page.filterCompany = s.filterCompany) := by
  intro n
  induction n with
  | zero =>
    intro s
    rw [sortJobs_zero, filterJobs_zero]
    exact ⟨⟨rfl, rfl, rfl⟩, ⟨rfl, rfl, rfl⟩⟩
  | succ n ih =>
    intro s
    rw [sortJobs_succ, filterJobs_succ]
    by_cases ht : truthy s.sortBy = true
    · rw [if_pos ht, if_pos ht]
      exact ⟨(ih (s.sortFiltered h)).2, (ih (s.assignFiltered _)).1⟩
    · rw [if_neg ht, if_neg ht]
      refine ⟨(ih (s.assignFiltered _)).2, ?_⟩
      obtain ⟨_, _, _, _, h5, h6, h7, _⟩ :=
        render_frame (s.assignFiltered (applyFilter h s.filterState s.all))
          (applyFilter h s.filterState s.all)
      exact ⟨h5, h6, h7⟩

/-- The pipeline keeps the invariant and never changes the content of `allJobs`,
whether a call returns or is aborted. -/
theorem pipeline_inv (h : Host) :
    ∀ (n : Nat) (s : Page), s.Inv →
      ((sortJobs h n s).page.Inv ∧ (sortJobs h n s).page.all = s.all) ∧
      ((filterJobs h n s).page.Inv ∧ (filterJobs h n s).page.all = s.all) := by
  intro n
  induction n with
  | zero =>
    intro s hs
    rw [sortJobs_zero, filterJobs_zero]
    exact ⟨⟨hs, rfl⟩, ⟨hs, rfl⟩⟩
  | succ n ih =>
    intro s hs
    have hf := assignFiltered_inv s (applyFilter h s.filterState s.all) hs.1
      (applyFilter_sublist h s.filterState s.all).subperm
    have hc := assignFiltered_inv s s.all hs.1 (List.Subperm.refl _)
    have hsrt := sortFiltered_inv h s hs
    rw [sortJobs_succ, filterJobs_succ]
    by_cases ht : truthy s.sortBy = true
    · rw [if_pos ht, if_pos ht]
      refine ⟨?_, ?_⟩
      · have := (ih _ hsrt.1).2
        exact ⟨this.1, this.2.trans hsrt.2⟩
      · have := (ih _ hf.1).1
        exact ⟨this.1, this.2.trans hf.2⟩
    · rw [if_neg ht, if_neg ht]
      refine ⟨?_, ?_⟩
      · have := (ih _ hc.1).2
        exact ⟨this.1, this.2.trans hc.2⟩
      · exact ⟨render_inv _ _ hf.1, (render_all _ _).trans hf.2⟩

/-! ## Search: lemmas -/

/-- A search whose query is empty after trimming only shows the validation message. -/
theorem searchJobs_of_blank (reply : SearchReply) (s : Page) (hq : trim s.jobQuery = []) :
    searchJobs reply s = showError s (lit "Please enter a job title or keyword") := by
  simp [searchJobs, hq, truthy]

/-- A search that does not end in a successful reply changes neither the heap nor the
two globals. -/
theorem searchJobs_frame (reply : SearchReply) (s : Page)
    (hr : ∀ data, reply = SearchReply.json data → data.success = false) :
    (searchJobs reply s).heap = s.heap ∧ (searchJobs reply s).nextRef = s.nextRef ∧
    (searchJobs reply s).allJobs = s.allJobs ∧
    (searchJobs reply s).filteredJobs = s.filteredJobs := by
  unfold searchJobs
  by_cases hq : truthy (trim s.jobQuery) = true
  · cases reply with
    | transportFailure => simp [hq, showError]
    | json data =>
      have hd := hr data rfl
      simp [hq, hd, showError, updateAPICounter]
  · simp [hq, showError]

/-- A search that ends in a successful reply stores the reply in a new array for
`allJobs` and a copy of it in another new array for `filteredJobs`. -/
theorem searchJobs_success (data : SearchData) (s : Page)
    (hq : trim s.jobQuery ≠ []) (hd : data.success = true) :
    (searchJobs (SearchReply.json data) s).all = data.jobs ∧
    (searchJobs (SearchReply.json data) s).filtered = data.jobs ∧
    (searchJobs (SearchReply.json data) s).WellFormed := by
  have ht : truthy (trim s.jobQuery) = true := (truthy_eq_true_iff _).mpr hq
  unfold searchJobs
  simp only [ht, hd, Bool.not_true, Bool.false_eq_true, if_false, if_true]
  cases data.message with
  | none =>
    by_cases hj : data.jobs = [] <;>
      simp [updateAPICounter, showError, updateResultsCount, displayJobs, Page.all,
        Page.filtered, Page.assignAll, Page.assignFiltered, Page.alloc, Page.WellFormed, hj] <;>
      omega
  | some m =>
    by_cases hm : truthy m = true <;> by_cases hj : data.jobs = [] <;>
      simp [updateAPICounter, showError, updateResultsCount, displayJobs, Page.all,
        Page.filtered, Page.assignAll, Page.assignFiltered, Page.alloc, Page.WellFormed, hj, hm] <;>
      omega

theorem searchJobs_inv (reply : SearchReply) (s : Page) (hs : s.Inv) :
    (searchJobs reply s).Inv := by
  by_cases hr : ∀ data, reply = SearchReply.json data → data.success = false
  · obtain ⟨h1, h2, h3, h4⟩ := searchJobs_frame reply s hr
    simp only [Page.Inv, Page.WellFormed, Page.all, Page.filtered, h1, h2, h3, h4]
    exact hs
  · push_neg at hr
    obtain ⟨data, rfl, hd⟩ := hr
    have hd : data.success = true := by simpa using hd
    by_cases hq : trim s.jobQuery = []
    · rw [searchJobs_of_blank _ s hq]
      exact hs
    · obtain ⟨h1, h2, h3⟩ := searchJobs_success data s hq hd
      refine ⟨h3, ?_⟩
      rw [h1, h2]

theorem initial_inv : Page.initial.Inv :=
  ⟨by decide, List.Subperm.refl _⟩

/-- Every reachable page satisfies the invariant. -/
theorem reachable_inv (h : Host) {s : Page} (hs : Reachable h s) : s.Inv := by
  induction hs with
  | initial => exact initial_inv
  | input q l src sortBy ft fc _ ih => exact ih
  | search reply _ ih => exact searchJobs_inv reply _ ih
  | filter fuel _ ih => exact ((pipeline_inv h fuel _ ih).2).1
  | sort fuel _ ih => exact ((pipeline_inv h fuel _ ih).1).1

/-- What rendering shows: the cards of `jobs` (or the notice when there are none) and
the count of `filteredJobs` against `allJobs`. -/
theorem render_view (s : Page) (jobs : List Job) :
    (updateResultsCount (displayJobs s jobs)).container =
      (if jobs.length = 0 then Container.noMatch else Container.cards jobs) ∧
    (updateResultsCount (displayJobs s jobs)).resultsCount =
      (if s.filtered.length = s.all.length then CountLabel.found s.filtered.length
       else CountLabel.ofTotal s.filtered.length s.all.length) := by
  unfold updateResultsCount displayJobs
  split <;> simp [Page.filtered, Page.all]

/-- With no sort key selected, one stack frame suffices for `filterJobs` to return, and
the page it returns is known. -/
theorem filterJobs_of_no_key (h : Host) (s : Page) (n : Nat) (hk : s.sortBy = []) :
    filterJobs h (n + 1) s =
      Outcome.rendered (updateResultsCount
        (displayJobs (s.assignFiltered (applyFilter h s.filterState s.all))
          (applyFilter h s.filterState s.all))) := by
  have ht : ¬ truthy s.sortBy = true := by simp [hk, truthy]
  rw [filterJobs_succ, if_neg ht]

/-- With no sort key selected, two stack frames suffice for `sortJobs` to return. -/
theorem sortJobs_of_no_key (h : Host) (s : Page) (n : Nat) (hk : s.sortBy = []) :
    sortJobs h (n + 2) s =
      Outcome.rendered (updateResultsCount
        (displayJobs ((s.assignFiltered s.all).assignFiltered
            (applyFilter h s.filterState s.all))
          (applyFilter h s.filterState s.all))) := by
  have ht : ¬ truthy s.sortBy = true := by simp [hk, truthy]
  have hk2 : (s.assignFiltered s.all).sortBy = [] := hk
  rw [sortJobs_succ, if_neg ht, filterJobs_of_no_key h (s.assignFiltered s.all) n hk2,
    assignFiltered_all_self]
  rfl

/-- With a sort key selected, the page an aborted `filterJobs` leaves behind depends on
the parity of the stack depth: filter order on odd depth, sorted on even depth. -/
theorem filterJobs_parity (h : Host) :
    ∀ (k : Nat) (s : Page), s.Inv → s.sortBy ≠ [] →
      (filterJobs h (2 * k + 1) s).page.filtered = applyFilter h s.filterState s.all ∧
      (filterJobs h (2 * k + 2) s).page.filtered =
        arraySort h s.sortBy (applyFilter h s.filterState s.all) := by
  intro k
  induction k with
  | zero =>
    intro s _ hk
    have ht : truthy s.sortBy = true := (truthy_eq_true_iff _).mpr hk
    have ht2 : truthy (s.assignFiltered (applyFilter h s.filterState s.all)).sortBy = true := ht
    refine ⟨?_, ?_⟩
    · rw [filterJobs_succ, if_pos ht, sortJobs_zero]
      exact assignFiltered_filtered _ _
    · rw [filterJobs_succ, if_pos ht, sortJobs_succ, if_pos ht2, filterJobs_zero]
      show (Page.sortFiltered h _).filtered = _
      rw [sortFiltered_filtered, assignFiltered_filtered]
      rfl
  | succ k ih =>
    intro s hs hk
    have ht : truthy s.sortBy = true := (truthy_eq_true_iff _).mpr hk
    have ht2 : truthy (s.assignFiltered (applyFilter h s.filterState s.all)).sortBy = true := ht
    have hf := assignFiltered_inv s (applyFilter h s.filterState s.all) hs.1
      (applyFilter_sublist h s.filterState s.all).subperm
    have hsrt := sortFiltered_inv h _ hf.1
    have hall := hsrt.2.trans hf.2
    have hstep : ∀ m : Nat, filterJobs h (m + 2) s =
        filterJobs h m
          ((s.assignFiltered (applyFilter h s.filterState s.all)).sortFiltered h) := by
      intro m
      rw [filterJobs_succ, if_pos ht, sortJobs_succ, if_pos ht2]
    have e1 : 2 * (k + 1) + 1 = (2 * k + 1) + 2 := by ring
    have e2 : 2 * (k + 1) + 2 = (2 * k + 2) + 2 := by ring
    have := ih _ hsrt.1 hk
    rw [e1, e2, hstep, hstep, this.1, this.2, hall]
    exact ⟨rfl, rfl⟩

/-- With no sort key selected, on a page with sound references: everything
`filterJobs` leaves behind, in terms of the page it started from. -/
theorem filterJobs_no_key_view (h : Host) (s : Page) (n : Nat) (hs : s.Inv)
    (hk : s.sortBy = []) :
    (filterJobs h (n + 1) s).isRendered = true ∧
    (filterJobs h (n + 1) s).page.filtered = applyFilter h s.filterState s.all ∧
    (filterJobs h (n + 1) s).page.all = s.all ∧
    (filterJobs h (n + 1) s).page.container =
      (if (applyFilter h s.filterState s.all).length = 0 then Container.noMatch
       else Container.cards (applyFilter h s.filterState s.all)) ∧
    (filterJobs h (n + 1) s).page.resultsCount =
      (if (applyFilter h s.filterState s.all).length = s.all.length
       then CountLabel.found (applyFilter h s.filterState s.all).length
       else CountLabel.ofTotal (applyFilter h s.filterState s.all).length s.all.length) := by
  have hf := assignFiltered_inv s (applyFilter h s.filterState s.all) hs.1
    (applyFilter_sublist h s.filterState s.all).subperm
  rw [filterJobs_of_no_key h s n hk]
  refine ⟨rfl, ?_, ?_, ?_, ?_⟩
  · exact (render_filtered _ _).trans (assignFiltered_filtered _ _)
  · exact (render_all _ _).trans hf.2
  · exact (render_view _ _).1
  · have := (render_view (s.assignFiltered (applyFilter h s.filterState s.all))
      (applyFilter h s.filterState s.all)).2
    rw [assignFiltered_filtered, hf.2] at this
    exact this

theorem inv_of_sortBy (s : Page) (k : JSString) (hs : s.Inv) :
    Page.Inv { s with sortBy := k } := hs

/-- With a sort key selected, the same for an aborted `sortJobs`: the stale list sorted
on depth one, then filter order on even depth and sorted on odd depth. -/
theorem sortJobs_parity (h : Host) (k : Nat) (s : Page) (hs : s.Inv) (hk : s.sortBy ≠ []) :
    (sortJobs h (2 * k + 2) s).page.filtered = applyFilter h s.filterState s.all ∧
    (sortJobs h (2 * k + 3) s).page.filtered =
      arraySort h s.sortBy (applyFilter h s.filterState s.all) := by
  have ht : truthy s.sortBy = true := (truthy_eq_true_iff _).mpr hk
  have hsrt := sortFiltered_inv h s hs
  have hp := filterJobs_parity h k _ hsrt.1 hk
  have e1 : 2 * k + 2 = (2 * k + 1) + 1 := by ring
  have e2 : 2 * k + 3 = (2 * k + 2) + 1 := by ring
  rw [e1, e2, sortJobs_succ, sortJobs_succ, if_pos ht, if_pos ht, hp.1, hp.2, hsrt.2]
  exact ⟨rfl, rfl⟩

theorem afterSearch_reachable (h : Host) (jobs : List Job) : Reachable h (afterSearch jobs) :=
  Reachable.search _ (Reachable.input _ _ _ _ _ _ Reachable.initial)

theorem withControls_reachable (h : Host) {s : Page} (hs : Reachable h s)
    (sortBy ft fc : JSString) : Reachable h (s.withControls sortBy ft fc) :=
  Reachable.input _ _ _ _ _ _ hs

theorem fullTimePage_reachable : Reachable asciiHost fullTimePage :=
  withControls_reachable asciiHost (afterSearch_reachable asciiHost _) _ _ _

theorem titleAscPage_reachable : Reachable asciiHost titleAscPage :=
  withControls_reachable asciiHost (afterSearch_reachable asciiHost _) _ _ _

/-! ## Claims on the password policy -/

/-- C1: for every password, the verdict of `validateSignupPassword` and of
`validateResetPassword` is true exactly when the password has at least 8 code units and
contains an upper-case letter, a lower-case letter, a digit and one of the listed
punctuation characters, whatever the page showed before; `Abcdef1!` is accepted, and
`abcdef1!`, `ABCDEF1!` and `Abcdefgh` are rejected. -/
theorem password_verdict_iff_policy (p : JSString) (d : Bool) (r : Requirements) :
    ((validateSignupPassword ⟨p, d, r⟩).2 = true ↔ MeetsPolicy p) ∧
    ((validateResetPassword ⟨p, d, r⟩).2 = true ↔ MeetsPolicy p) ∧
    (validateSignupPassword ⟨lit "Abcdef1!", d, r⟩).2 = true ∧
    (validateResetPassword ⟨lit "Abcdef1!", d, r⟩).2 = true ∧
    (validateSignupPassword ⟨lit "abcdef1!", d, r⟩).2 = false ∧
    (validateResetPassword ⟨lit "abcdef1!", d, r⟩).2 = false ∧
    (validateSignupPassword ⟨lit "ABCDEF1!", d, r⟩).2 = false ∧
    (validateResetPassword ⟨lit "ABCDEF1!", d, r⟩).2 = false ∧
    (validateSignupPassword ⟨lit "Abcdefgh", d, r⟩).2 = false ∧
    (validateResetPassword ⟨lit "Abcdefgh", d, r⟩).2 = false :=
  ⟨validateSignupPassword_verdict ⟨p, d, r⟩, validateResetPassword_verdict ⟨p, d, r⟩,
    rfl, rfl, rfl, rfl, rfl, rfl, rfl, rfl⟩

/-- C2, as stated, fails: on the empty password `validateProfilePassword` answers true
while `validateSignupPassword` and `validateResetPassword` answer false. -/
theorem profile_verdict_differs_on_empty :
    (validateProfilePassword ⟨[], false, ⟨false, false, false, false, false⟩⟩).2 ≠
      (validateSignupPassword ⟨[], true, ⟨false, false, false, false, false⟩⟩).2 ∧
    (validateProfilePassword ⟨[], false, ⟨false, false, false, false, false⟩⟩).2 ≠ false := by
  decide

/-- C2, amended: on every non-empty password the profile validator shows the
requirements box and the three validators return the same verdict; on the empty password
signup and reset return false, and the profile validator hides the requirements box,
leaves the requirement indicators as they were and returns true. -/
theorem profile_verdict_eq_of_nonempty (p : JSString) (hp : p ≠ []) (d v : Bool)
    (r q : Requirements) :
    (validateProfilePassword ⟨p, v, q⟩).2 = (validateSignupPassword ⟨p, d, r⟩).2 ∧
    (validateProfilePassword ⟨p, v, q⟩).2 = (validateResetPassword ⟨p, d, r⟩).2 ∧
    (validateSignupPassword ⟨[], d, r⟩).2 = false ∧
    (validateResetPassword ⟨[], d, r⟩).2 = false ∧
    (validateProfilePassword ⟨[], v, q⟩).2 = true ∧
    (validateProfilePassword ⟨[], v, q⟩).1.requirementsShown = false ∧
    (validateProfilePassword ⟨[], v, q⟩).1.reqs = q ∧
    (validateProfilePassword ⟨p, v, q⟩).1.requirementsShown = true := by
  have h1 := validateProfilePassword_verdict ⟨p, v, q⟩ hp
  have h2 := validateSignupPassword_verdict ⟨p, d, r⟩
  have h3 := validateResetPassword_verdict ⟨p, d, r⟩
  have ht : truthy p = true := (truthy_eq_true_iff p).mpr hp
  refine ⟨?_, ?_, rfl, rfl, rfl, rfl, rfl, ?_⟩
  · exact Bool.eq_iff_iff.mpr (h1.trans h2.symm)
  · exact Bool.eq_iff_iff.mpr (h1.trans h3.symm)
  · simp [validateProfilePassword, ht]

theorem profile_verdict_eq_of_nonempty_witness :
    lit "Abcdef1!" ≠ [] ∧
    (validateProfilePassword ⟨lit "Abcdef1!", false, ⟨false, false, false, false, false⟩⟩).2 =
      (validateSignupPassword ⟨lit "Abcdef1!", true, ⟨false, false, false, false, false⟩⟩).2 ∧
    (validateProfilePassword ⟨[], true, ⟨false, false, false, false, false⟩⟩).1.requirementsShown
      = false :=
  ⟨by decide,
    (profile_verdict_eq_of_nonempty (lit "Abcdef1!") (by decide) true false
      ⟨false, false, false, false, false⟩ ⟨false, false, false, false, false⟩).1,
    (profile_verdict_eq_of_nonempty (lit "Abcdef1!") (by decide) true true
      ⟨false, false, false, false, false⟩ ⟨false, false, false, false, false⟩).2.2.2.2.2.1⟩

/-! ## Claims on the job-listing pipeline -/

/-- C3 fails on the code: with any of the four sort keys selected, on every page and at
every stack depth, neither `sortJobs` nor `filterJobs` returns and renders; each calls
the other until the call stack is exhausted. -/
theorem sort_key_never_renders (h : Host) (s : Page) (fuel : Nat) :
    ((sortJobs h fuel { s with sortBy := lit "date-desc" }).isRendered = false ∧
      (filterJobs h fuel { s with sortBy := lit "date-desc" }).isRendered = false) ∧
    ((sortJobs h fuel { s with sortBy := lit "date-asc" }).isRendered = false ∧
      (filterJobs h fuel { s with sortBy := lit "date-asc" }).isRendered = false) ∧
    ((sortJobs h fuel { s with sortBy := lit "title-asc" }).isRendered = false ∧
      (filterJobs h fuel { s with sortBy := lit "title-asc" }).isRendered = false) ∧
    ((sortJobs h fuel { s with sortBy := lit "title-desc" }).isRendered = false ∧
      (filterJobs h fuel { s with sortBy := lit "title-desc" }).isRendered = false) :=
  ⟨never_renders_of_sortKey h fuel _ (show lit "date-desc" ≠ [] by decide),
    never_renders_of_sortKey h fuel _ (show lit "date-asc" ≠ [] by decide),
    never_renders_of_sortKey h fuel _ (show lit "title-asc" ≠ [] by decide),
    never_renders_of_sortKey h fuel _ (show lit "title-desc" ≠ [] by decide)⟩

/-- C4: with no sort key selected, `filterJobs` returns (one stack frame suffices) and
leaves in `filteredJobs` exactly the listings of `allJobs` that satisfy the filter
state, in their order in `allJobs`, and shows them. -/
theorem filterJobs_no_sort_key (h : Host) (s : Page) (fuel : Nat) (hk : s.sortBy = []) :
    (filterJobs h (fuel + 1) s).isRendered = true ∧
    (filterJobs h (fuel + 1) s).page.filtered = applyFilter h s.filterState s.all ∧
    (filterJobs h (fuel + 1) s).page.filtered.Sublist s.all ∧
    (∀ job, job ∈ (filterJobs h (fuel + 1) s).page.filtered ↔
      job ∈ s.all ∧ Satisfies h s.filterState job) ∧
    (filterJobs h (fuel + 1) s).page.container =
      (if (applyFilter h s.filterState s.all).length = 0 then Container.noMatch
       else Container.cards (applyFilter h s.filterState s.all)) := by
  have hf : (filterJobs h (fuel + 1) s).page.filtered = applyFilter h s.filterState s.all := by
    rw [filterJobs_of_no_key h s fuel hk]
    exact (render_filtered _ _).trans (assignFiltered_filtered _ _)
  refine ⟨?_, hf, ?_, ?_, ?_⟩
  · rw [filterJobs_of_no_key h s fuel hk]
    rfl
  · rw [hf]
    exact applyFilter_sublist h _ _
  · intro job
    rw [hf]
    exact mem_applyFilter h _ _ job
  · rw [filterJobs_of_no_key h s fuel hk]
    exact (render_view _ _).1

theorem filterJobs_no_sort_key_witness :
    fullTimePage.sortBy = [] ∧
    (filterJobs asciiHost 1 fullTimePage).page.filtered =
      [sampleJob "Developer" "Acme" "Full-time", sampleJob "Analyst" "Crux" "Full-time"] :=
  ⟨rfl, (filterJobs_no_sort_key asciiHost fullTimePage 0 rfl).2.1.trans (by decide)⟩

/-- C5 fails on the code: after a search that returned the titles `Tester`, `Analyst`,
with the sort key `title-asc` selected and no filter set, neither `sortJobs` nor
`filterJobs` returns, at any stack depth, and the order `sortJobs` leaves in
`filteredJobs` when the stack is exhausted depends on the stack depth: filter order
(unsorted) on even depth, sorted on odd depth. -/
theorem filter_then_sort_aborts (k : Nat) :
    (sortJobs asciiHost k titleAscPage).isRendered = false ∧
    (filterJobs asciiHost k titleAscPage).isRendered = false ∧
    (sortJobs asciiHost (2 * k + 2) titleAscPage).page.filtered
      = [sampleJob "Tester" "Bolt" "Part-time", sampleJob "Analyst" "Crux" "Full-time"] ∧
    (sortJobs asciiHost (2 * k + 3) titleAscPage).page.filtered
      = [sampleJob "Analyst" "Crux" "Full-time", sampleJob "Tester" "Bolt" "Part-time"] := by
  have hkey : titleAscPage.sortBy ≠ [] := by decide
  have hp := sortJobs_parity asciiHost k _ (reachable_inv asciiHost titleAscPage_reachable) hkey
  exact ⟨(never_renders_of_sortKey asciiHost _ _ hkey).1,
    (never_renders_of_sortKey asciiHost _ _ hkey).2, hp.1.trans (by decide),
    hp.2.trans (by decide)⟩

/-- C6: on every reachable page, an earlier `sortJobs` with any key and any stack depth,
returned or aborted, leaves the content and order of `allJobs` as they were; a later
`sortJobs` with the key none returns and leaves `filteredJobs` equal to `allJobs`
filtered by the filter state, in the order of `allJobs`. -/
theorem sortJobs_none_restores_filter_order (h : Host) (s : Page) (hs : Reachable h s)
    (k : JSString) (n m : Nat) :
    (sortJobs h n { s with sortBy := k }).page.all = s.all ∧
    (sortJobs h (m + 2)
      { (sortJobs h n { s with sortBy := k }).page with sortBy := [] }).isRendered = true ∧
    (sortJobs h (m + 2)
      { (sortJobs h n { s with sortBy := k }).page with sortBy := [] }).page.filtered =
        applyFilter h s.filterState s.all ∧
    (sortJobs h (m + 2)
      { (sortJobs h n { s with sortBy := k }).page with sortBy := [] }).page.all = s.all := by
  have hs0 : Page.Inv { s with sortBy := k } := inv_of_sortBy s k (reachable_inv h hs)
  obtain ⟨hinv1, hall1⟩ := (pipeline_inv h n _ hs0).1
  obtain ⟨_, hft, hfc⟩ := (pipeline_inputs h n { s with sortBy := k }).1
  have hall1 : (sortJobs h n { s with sortBy := k }).page.all = s.all := hall1
  have hs1 := inv_of_sortBy _ [] hinv1
  have hall2 := ((pipeline_inv h (m + 2) _ hs1).1).2
  have hfs : Page.filterState { (sortJobs h n { s with sortBy := k }).page with sortBy := [] }
      = s.filterState := by
    simp only [Page.filterState, hft, hfc]
  have hall3 : Page.all { (sortJobs h n { s with sortBy := k }).page with sortBy := [] }
      = s.all := hall1
  refine ⟨hall1, ?_, ?_, hall2.trans hall3⟩
  · rw [sortJobs_of_no_key h _ m rfl]
    rfl
  · rw [sortJobs_of_no_key h _ m rfl]
    refine ((render_filtered _ _).trans (assignFiltered_filtered _ _)).trans ?_
    rw [hfs, hall3]

theorem sortJobs_none_restores_filter_order_witness :
    Reachable asciiHost fullTimePage ∧
    (sortJobs asciiHost 2
      { (sortJobs asciiHost 7 { fullTimePage with sortBy := lit "title-asc" }).page
        with sortBy := [] }).page.filtered =
      applyFilter asciiHost fullTimePage.filterState
        fullTimePage.all :=
  ⟨fullTimePage_reachable,
    (sortJobs_none_restores_filter_order asciiHost fullTimePage
      (fullTimePage_reachable) (lit "title-asc") 7 0).2.2.1⟩

/-- C7: on every reachable page with no sort key selected, a second `filterJobs` with
the same filter inputs returns and leaves the same `filteredJobs`, the same `allJobs`
and the same rendering as the first. -/
theorem filterJobs_idempotent (h : Host) (s : Page) (hs : Reachable h s)
    (hk : s.sortBy = []) (n m : Nat) :
    (filterJobs h (m + 1) (filterJobs h (n + 1) s).page).isRendered = true ∧
    (filterJobs h (m + 1) (filterJobs h (n + 1) s).page).page.filtered =
      (filterJobs h (n + 1) s).page.filtered ∧
    (filterJobs h (m + 1) (filterJobs h (n + 1) s).page).page.all =
      (filterJobs h (n + 1) s).page.all ∧
    (filterJobs h (m + 1) (filterJobs h (n + 1) s).page).page.container =
      (filterJobs h (n + 1) s).page.container ∧
    (filterJobs h (m + 1) (filterJobs h (n + 1) s).page).page.resultsCount =
      (filterJobs h (n + 1) s).page.resultsCount := by
  have hinv := reachable_inv h hs
  obtain ⟨_, a2, a3, a4, a5⟩ := filterJobs_no_key_view h s n hinv hk
  obtain ⟨hsb, hft, hfc⟩ := (pipeline_inputs h (n + 1) s).2
  have hinv1 := ((pipeline_inv h (n + 1) s hinv).2).1
  have hk1 : (filterJobs h (n + 1) s).page.sortBy = [] := hsb.trans hk
  have hfs : (filterJobs h (n + 1) s).page.filterState = s.filterState := by
    simp only [Page.filterState, hft, hfc]
  obtain ⟨b1, b2, b3, b4, b5⟩ := filterJobs_no_key_view h _ m hinv1 hk1
  rw [hfs, a3] at b2 b4 b5
  exact ⟨b1, b2.trans a2.symm, b3, b4.trans a4.symm, b5.trans a5.symm⟩

theorem filterJobs_idempotent_witness :
    Reachable asciiHost fullTimePage ∧ fullTimePage.sortBy = [] ∧
    (filterJobs asciiHost 1 (filterJobs asciiHost 1 fullTimePage).page).page.filtered
      = (filterJobs asciiHost 1 fullTimePage).page.filtered :=
  ⟨fullTimePage_reachable, rfl,
    (filterJobs_idempotent asciiHost fullTimePage
      (fullTimePage_reachable) rfl 0 0).2.1⟩

/-- C8: in every reachable state (any sequence of input edits, searches with any reply,
and calls of `filterJobs` and `sortJobs`, returned or aborted), every element of
`filteredJobs` is an element of `allJobs` and `filteredJobs` is not longer than
`allJobs`. -/
theorem filtered_within_all (h : Host) (s : Page) (hs : Reachable h s) :
    (∀ job ∈ s.filtered, job ∈ s.all) ∧ s.filtered.length ≤ s.all.length :=
  ⟨fun _ hj => (reachable_inv h hs).2.subset hj, (reachable_inv h hs).2.length_le⟩

theorem filtered_within_all_witness :
    Reachable asciiHost (filterJobs asciiHost 1 fullTimePage).page ∧
    (filterJobs asciiHost 1 fullTimePage).page.filtered.length ≤
      (filterJobs asciiHost 1 fullTimePage).page.all.length :=
  ⟨Reachable.filter 1 (fullTimePage_reachable),
    (filtered_within_all asciiHost _
      (Reachable.filter 1 (fullTimePage_reachable))).2⟩

/-- C9, as stated, fails: after a search, a `filterJobs` with `full` in the
employment-type filter input, and a second successful search issued while the input
still holds `full`, `filteredJobs` contains the part-time listing, which the active
filter excludes, and differs from `allJobs` filtered by the active filter. -/
theorem search_ignores_active_filter :
    searchedAgain.filterType = lit "full" ∧
    sampleJob "Tester" "Bolt" "Part-time" ∈ searchedAgain.filtered ∧
    ¬ Satisfies asciiHost searchedAgain.filterState (sampleJob "Tester" "Bolt" "Part-time") ∧
    searchedAgain.filtered ≠
      applyFilter asciiHost searchedAgain.filterState searchedAgain.all := by
  decide

/-- C9, amended: a successful search on any page `t` leaves `filteredJobs` a copy of the
whole of `allJobs`, the listings of the reply in their order, whatever the filter inputs
hold; on a reachable page with no sort key selected, `filterJobs` and `sortJobs` return
and leave `filteredJobs` equal to `allJobs` filtered by the current filter inputs. -/
theorem filtered_after_operation (h : Host) (s : Page) (hs : Reachable h s)
    (hk : s.sortBy = []) (n : Nat) (t : Page) (hq : trim t.jobQuery ≠ [])
    (data : SearchData) (hd : data.success = true) :
    ((searchJobs (SearchReply.json data) t).all = data.jobs ∧
      (searchJobs (SearchReply.json data) t).filtered =
        (searchJobs (SearchReply.json data) t).all) ∧
    ((filterJobs h (n + 1) s).isRendered = true ∧
      (filterJobs h (n + 1) s).page.filtered =
        applyFilter h (filterJobs h (n + 1) s).page.filterState
          (filterJobs h (n + 1) s).page.all) ∧
    ((sortJobs h (n + 2) s).isRendered = true ∧
      (sortJobs h (n + 2) s).page.filtered =
        applyFilter h (sortJobs h (n + 2) s).page.filterState
          (sortJobs h (n + 2) s).page.all) := by
  have hinv := reachable_inv h hs
  obtain ⟨c1, c2, _⟩ := searchJobs_success data t hq hd
  obtain ⟨a1, a2, a3, _⟩ := filterJobs_no_key_view h s n hinv hk
  obtain ⟨⟨_, sft, sfc⟩, ⟨_, fft, ffc⟩⟩ := pipeline_inputs h (n + 2) s
  obtain ⟨⟨_, gft, gfc⟩, ⟨_, hft, hfc⟩⟩ := pipeline_inputs h (n + 1) s
  have sall := ((pipeline_inv h (n + 2) s hinv).1).2
  refine ⟨⟨c1, c2.trans c1.symm⟩, ⟨a1, ?_⟩, ?_, ?_⟩
  · rw [a2, a3]
    simp only [Page.filterState, hft, hfc]
  · rw [sortJobs_of_no_key h s n hk]
    rfl
  · rw [sall]
    simp only [Page.filterState, sft, sfc]
    rw [sortJobs_of_no_key h s n hk]
    exact (render_filtered _ _).trans (assignFiltered_filtered _ _)

theorem filtered_after_operation_witness :
    Reachable asciiHost fullTimePage ∧
    fullTimePage.sortBy = [] ∧
    trim fullTimePage.jobQuery ≠ [] ∧
    (SearchData.mk true twoJobs none).success = true ∧
    (filterJobs asciiHost 1 fullTimePage).page.filtered =
      applyFilter asciiHost (filterJobs asciiHost 1 fullTimePage).page.filterState
        (filterJobs asciiHost 1 fullTimePage).page.all :=
  ⟨fullTimePage_reachable, rfl, by decide, rfl,
    (filtered_after_operation asciiHost fullTimePage
      (fullTimePage_reachable) rfl 0 fullTimePage (by decide)
      (SearchData.mk true twoJobs none) rfl).2.1.2⟩

/-- C10: when the query input is empty or holds only white space, `searchJobs` shows
`Please enter a job title or keyword`, issues no request, whatever the network would
have answered, and leaves the heap and both globals, hence `allJobs` and `filteredJobs`,
as they were. -/
theorem searchJobs_blank_query (reply : SearchReply) (s : Page)
    (hq : ∀ c ∈ s.jobQuery, isWhiteSpace c = true) :
    (searchJobs reply s).errorMessage = some (lit "Please enter a job title or keyword") ∧
    (searchJobs reply s).requests = s.requests ∧
    (searchJobs reply s).heap = s.heap ∧
    (searchJobs reply s).allJobs = s.allJobs ∧
    (searchJobs reply s).filteredJobs = s.filteredJobs ∧
    (searchJobs reply s).all = s.all ∧
    (searchJobs reply s).filtered = s.filtered := by
  rw [searchJobs_of_blank reply s (trim_eq_nil_of_whiteSpace _ hq)]
  exact ⟨rfl, rfl, rfl, rfl, rfl, rfl, rfl⟩

theorem searchJobs_blank_query_witness :
    (∀ c ∈ ((afterSearch twoJobs).withInputs [32, 9, 160] [] [] [] [] []).jobQuery,
      isWhiteSpace c = true) ∧
    (searchJobs (SearchReply.json ⟨true, twoJobs, none⟩)
      ((afterSearch twoJobs).withInputs [32, 9, 160] [] [] [] [] [])).requests =
      ((afterSearch twoJobs).withInputs [32, 9, 160] [] [] [] [] []).requests :=
  ⟨by decide,
    (searchJobs_blank_query (SearchReply.json ⟨true, twoJobs, none⟩)
      ((afterSearch twoJobs).withInputs [32, 9, 160] [] [] [] [] []) (by decide)).2.1⟩

/-! ## Claims on failed searches -/

/-- What a search with a non-empty query shows when the request fails in transport or
the reply has `success = false`. -/
theorem searchJobs_failure_message (s : Page) (hq : trim s.jobQuery ≠ []) (data : SearchData)
    (hd : data.success = false) :
    (searchJobs SearchReply.transportFailure s).errorMessage =
      some (lit "Network error. Please check your connection.") ∧
    (searchJobs (SearchReply.json data) s).errorMessage =
      some (messageOr data.message (lit "An error occurred while searching")) := by
  have ht : truthy (trim s.jobQuery) = true := (truthy_eq_true_iff _).mpr hq
  unfold searchJobs
  simp [ht, hd, showError, updateAPICounter]

/-- C11: for every page and every query that is non-empty after trimming, a search whose
request fails in transport leaves the heap and both globals, hence `allJobs` and
`filteredJobs`, exactly as they were and shows `Network error. Please check your
connection.`; a reply with `success = false` leaves them as they were as well and
shows the server's message (or the fallback text). -/
theorem searchJobs_failure_keeps_lists (s : Page) (hq : trim s.jobQuery ≠ [])
    (data : SearchData) (hd : data.success = false) :
    ((searchJobs SearchReply.transportFailure s).all = s.all ∧
      (searchJobs SearchReply.transportFailure s).filtered = s.filtered ∧
      (searchJobs SearchReply.transportFailure s).heap = s.heap ∧
      (searchJobs SearchReply.transportFailure s).allJobs = s.allJobs ∧
      (searchJobs SearchReply.transportFailure s).filteredJobs = s.filteredJobs ∧
      (searchJobs SearchReply.transportFailure s).errorMessage =
        some (lit "Network error. Please check your connection.")) ∧
    ((searchJobs (SearchReply.json data) s).all = s.all ∧
      (searchJobs (SearchReply.json data) s).filtered = s.filtered ∧
      (searchJobs (SearchReply.json data) s).heap = s.heap ∧
      (searchJobs (SearchReply.json data) s).allJobs = s.allJobs ∧
      (searchJobs (SearchReply.json data) s).filteredJobs = s.filteredJobs ∧
      (searchJobs (SearchReply.json data) s).errorMessage =
        some (messageOr data.message (lit "An error occurred while searching"))) := by
  obtain ⟨a1, _, a3, a4⟩ := searchJobs_frame SearchReply.transportFailure s
    (fun d hr => by cases hr)
  obtain ⟨b1, _, b3, b4⟩ := searchJobs_frame (SearchReply.json data) s
    (fun d hr => by cases hr; exact hd)
  obtain ⟨m1, m2⟩ := searchJobs_failure_message s hq data hd
  refine ⟨⟨?_, ?_, a1, a3, a4, m1⟩, ⟨?_, ?_, b1, b3, b4, m2⟩⟩
  · simp only [Page.all, a1, a3]
  · simp only [Page.filtered, a1, a4]
  · simp only [Page.all, b1, b3]
  · simp only [Page.filtered, b1, b4]

theorem searchJobs_failure_keeps_lists_witness :
    trim fullTimePage.jobQuery ≠ [] ∧
    (SearchData.mk false [] (some (lit "Quota exceeded"))).success = false ∧
    (searchJobs SearchReply.transportFailure fullTimePage).filtered = fullTimePage.filtered ∧
    (searchJobs (SearchReply.json ⟨false, [], some (lit "Quota exceeded")⟩)
      fullTimePage).all = fullTimePage.all :=
  ⟨by decide, rfl,
    (searchJobs_failure_keeps_lists fullTimePage (by decide)
      ⟨false, [], some (lit "Quota exceeded")⟩ rfl).1.2.1,
    (searchJobs_failure_keeps_lists fullTimePage (by decide)
      ⟨false, [], some (lit "Quota exceeded")⟩ rfl).2.1⟩

/-! ## Claims on form submission -/

/-- The three ways `handleSignup` can go, by the verdict and the confirmation. -/
theorem handleSignup_cases (reply : AuthReply) (p : SignupPage) :
    (¬ MeetsPolicy p.form.password →
      (handleSignup reply p).errorMessage = some (lit "Password does not meet requirements") ∧
      (handleSignup reply p).requests = p.requests ∧
      (handleSignup reply p).navigatedTo = p.navigatedTo) ∧
    (MeetsPolicy p.form.password → p.form.password ≠ p.confirmPassword →
      (handleSignup reply p).errorMessage = some (lit "Passwords do not match") ∧
      (handleSignup reply p).requests = p.requests ∧
      (handleSignup reply p).navigatedTo = p.navigatedTo) ∧
    (MeetsPolicy p.form.password → p.form.password = p.confirmPassword →
      (handleSignup reply p).requests =
        p.requests ++ [AuthRequest.signup p.username p.email p.form.password]) := by
  have hv := validateSignupPassword_verdict p.form
  refine ⟨?_, ?_, ?_⟩
  · intro hbad
    have hf : (validateSignupPassword p.form).2 = false := by
      simpa using (not_congr hv).mpr hbad
    simp [handleSignup, hf]
  · intro hok hne
    have ht : (validateSignupPassword p.form).2 = true := hv.mpr hok
    simp [handleSignup, ht, hne]
  · intro hok heq
    have ht : (validateSignupPassword p.form).2 = true := hv.mpr hok
    cases reply with
    | transportFailure => simp [handleSignup, ht, heq]
    | json data => cases hd : data.success <;> simp [handleSignup, ht, heq, hd]

/-- The three ways `handleResetPassword` can go, by the verdict and the confirmation. -/
theorem handleResetPassword_cases (reply : AuthReply) (p : ResetPage) :
    (¬ MeetsPolicy p.form.password →
      (handleResetPassword reply p).message =
        some (lit "Password does not meet requirements", false) ∧
      (handleResetPassword reply p).requests = p.requests) ∧
    (MeetsPolicy p.form.password → p.form.password ≠ p.confirmPassword →
      (handleResetPassword reply p).message = some (lit "Passwords do not match", false) ∧
      (handleResetPassword reply p).requests = p.requests) ∧
    (MeetsPolicy p.form.password → p.form.password = p.confirmPassword →
      (handleResetPassword reply p).requests =
        p.requests ++ [AuthRequest.resetPassword p.resetEmail p.code p.form.password]) := by
  have hv := validateResetPassword_verdict p.form
  refine ⟨?_, ?_, ?_⟩
  · intro hbad
    have hf : (validateResetPassword p.form).2 = false := by
      simpa using (not_congr hv).mpr hbad
    simp [handleResetPassword, hf]
  · intro hok hne
    have ht : (validateResetPassword p.form).2 = true := hv.mpr hok
    simp [handleResetPassword, ht, hne]
  · intro hok heq
    have ht : (validateResetPassword p.form).2 = true := hv.mpr hok
    cases reply with
    | transportFailure => simp [handleResetPassword, ht, heq]
    | json data => cases hd : data.success <;> simp [handleResetPassword, ht, heq, hd]

/-- C12: on signup and on password reset, whenever the password entered does not satisfy
the policy or differs from its confirmation, the handler issues no request, whatever the
network would have answered, and shows `Password does not meet requirements` when the
policy is not satisfied (checked first) and `Passwords do not match` otherwise; so a
request is issued only when the policy is satisfied and the two passwords are equal. -/
theorem invalid_submission_sends_nothing (pw c : JSString)
    (hbad : ¬ MeetsPolicy pw ∨ pw ≠ c) (r₁ r₂ : AuthReply) (p : SignupPage) (q : ResetPage) :
    ((handleSignup r₁ (p.withPasswords pw c)).requests = p.requests ∧
      (handleSignup r₁ (p.withPasswords pw c)).navigatedTo = p.navigatedTo ∧
      (handleSignup r₁ (p.withPasswords pw c)).errorMessage =
        some (if MeetsPolicy pw then lit "Passwords do not match"
              else lit "Password does not meet requirements")) ∧
    ((handleResetPassword r₂ (q.withPasswords pw c)).requests = q.requests ∧
      (handleResetPassword r₂ (q.withPasswords pw c)).message =
        some (if MeetsPolicy pw then lit "Passwords do not match"
              else lit "Password does not meet requirements", false)) := by
  obtain ⟨s1, s2, _⟩ := handleSignup_cases r₁ (p.withPasswords pw c)
  obtain ⟨t1, t2, _⟩ := handleResetPassword_cases r₂ (q.withPasswords pw c)
  by_cases hok : MeetsPolicy pw
  · have hne : pw ≠ c := hbad.resolve_left (not_not.mpr hok)
    obtain ⟨a1, a2, a3⟩ := s2 hok hne
    obtain ⟨b1, b2⟩ := t2 hok hne
    rw [if_pos hok]
    exact ⟨⟨a2, a3, a1⟩, ⟨b2, b1⟩⟩
  · obtain ⟨a1, a2, a3⟩ := s1 hok
    obtain ⟨b1, b2⟩ := t1 hok
    rw [if_neg hok]
    exact ⟨⟨a2, a3, a1⟩, ⟨b2, b1⟩⟩

theorem invalid_submission_sends_nothing_witness :
    (¬ MeetsPolicy (lit "Abcdef1!") ∨ lit "Abcdef1!" ≠ lit "Abcdef1?") ∧
    (handleSignup (AuthReply.json ⟨true, none⟩)
      ((sampleSignup "" "").withPasswords (lit "Abcdef1!") (lit "Abcdef1?"))).requests = [] ∧
    (handleResetPassword (AuthReply.json ⟨true, none⟩)
      ((sampleReset "" "").withPasswords (lit "Abcdef1!") (lit "Abcdef1?"))).requests = [] :=
  ⟨Or.inr (by decide),
    (invalid_submission_sends_nothing (lit "Abcdef1!") (lit "Abcdef1?") (Or.inr (by decide))
      (AuthReply.json ⟨true, none⟩) (AuthReply.json ⟨true, none⟩)
      (sampleSignup "" "") (sampleReset "" "")).1.1,
    (invalid_submission_sends_nothing (lit "Abcdef1!") (lit "Abcdef1?") (Or.inr (by decide))
      (AuthReply.json ⟨true, none⟩) (AuthReply.json ⟨true, none⟩)
      (sampleSignup "" "") (sampleReset "" "")).2.1⟩

/-! ## Date labels: lemmas -/

/-- The label of a posted date that is a non-empty string other than `N/A` and that the
host parses. -/
theorem formatDate_of_parsed (h : Host) (loc : Int → JSString) (now : Int) (s : JSString)
    (t : Int) (hs : s ≠ []) (hna : s ≠ lit "N/A") (hp : h.dateParse s = some t) :
    formatDate h loc now (DateField.str s) =
      if ⌈((now - t).natAbs : ℚ) / (1000 * 60 * 60 * 24)⌉₊ = 0 then lit "Today"
      else if ⌈((now - t).natAbs : ℚ) / (1000 * 60 * 60 * 24)⌉₊ = 1 then lit "Yesterday"
      else if ⌈((now - t).natAbs : ℚ) / (1000 * 60 * 60 * 24)⌉₊ < 7 then
        lit (toString ⌈((now - t).natAbs : ℚ) / (1000 * 60 * 60 * 24)⌉₊) ++ lit " days ago"
      else if ⌈((now - t).natAbs : ℚ) / (1000 * 60 * 60 * 24)⌉₊ < 30 then
        lit (toString (⌈((now - t).natAbs : ℚ) / (1000 * 60 * 60 * 24)⌉₊ / 7)) ++
          lit " weeks ago"
      else loc t := by
  have ht : truthy s = true := (truthy_eq_true_iff s).mpr hs
  have hne : (DateField.str s == DateField.str (lit "N/A")) = false := by
    rw [beq_eq_false_iff_ne]
    intro heq
    exact hna (DateField.str.inj heq)
  unfold formatDate
  simp only [DateField.truthy, ht, hne, Bool.not_true, Bool.or_self, Bool.false_eq_true,
    if_false, newDate, hp, diffDays, toLocaleDateString]

/-- A whole number of days rounds up to itself. -/
theorem ceil_whole_days (k : Nat) :
    ⌈((86400000 * k : Nat) : ℚ) / (1000 * 60 * 60 * 24)⌉₊ = k := by
  have hq : ((86400000 * k : Nat) : ℚ) / (1000 * 60 * 60 * 24) = (k : ℚ) := by
    push_cast
    ring
  rw [hq, Nat.ceil_natCast]

/-- Any positive time up to one day rounds up to one day. -/
theorem ceil_within_day (x : Nat) (h0 : 0 < x) (h1 : x ≤ 86400000) :
    ⌈(x : ℚ) / (1000 * 60 * 60 * 24)⌉₊ = 1 := by
  rw [Nat.ceil_eq_iff one_ne_zero]
  have hx0 : (0 : ℚ) < x := by exact_mod_cast h0
  have hx1 : (x : ℚ) ≤ 86400000 := by exact_mod_cast h1
  constructor
  · simp only [Nat.sub_self, Nat.cast_zero]
    positivity
  · rw [div_le_iff₀ (by norm_num)]
    norm_num
    linarith

/-- The number of days `formatDate` works with when the posted date lies a whole number
`k` of days before the current time. -/
theorem ceil_of_whole_days (now t : Int) (k : Nat) (hk : now - t = 86400000 * (k : Int)) :
    ⌈((now - t).natAbs : ℚ) / (1000 * 60 * 60 * 24)⌉₊ = k := by
  have habs : (now - t).natAbs = 86400000 * k := by
    rw [hk]
    have : (86400000 * (k : Int)) = ((86400000 * k : Nat) : Int) := by push_cast; ring
    rw [this, Int.natAbs_ofNat]
  rw [habs]
  exact ceil_whole_days k

/-! ## Claims on date labels -/

/-- C13: for a posted date the host parses to the time `t`, with
`n = ceil(|now - t| / 86400000)`, `formatDate` returns `Yesterday` when `n = 1`,
`n days ago` when `2 ≤ n ≤ 6`, `floor(n / 7) weeks ago` when `7 ≤ n ≤ 29` and the
localized date when `n ≥ 30`; a date exactly 1, 6, 7, 29, 30 days before `now` gives
`Yesterday`, `6 days ago`, `1 weeks ago`, `4 weeks ago` and the localized date. -/
theorem formatDate_labels (h : Host) (loc : Int → JSString) (now : Int) (s : JSString)
    (t : Int) (hs : s ≠ []) (hna : s ≠ lit "N/A") (hp : h.dateParse s = some t) :
    (∀ n : Nat, n = ⌈((now - t).natAbs : ℚ) / 86400000⌉₊ →
      (n = 1 → formatDate h loc now (DateField.str s) = lit "Yesterday") ∧
      (2 ≤ n → n ≤ 6 →
        formatDate h loc now (DateField.str s) = lit (toString n) ++ lit " days ago") ∧
      (7 ≤ n → n ≤ 29 →
        formatDate h loc now (DateField.str s) = lit (toString (n / 7)) ++ lit " weeks ago") ∧
      (30 ≤ n → formatDate h loc now (DateField.str s) = loc t)) ∧
    (now - t = 86400000 * 1 → formatDate h loc now (DateField.str s) = lit "Yesterday") ∧
    (now - t = 86400000 * 6 → formatDate h loc now (DateField.str s) = lit "6 days ago") ∧
    (now - t = 86400000 * 7 → formatDate h loc now (DateField.str s) = lit "1 weeks ago") ∧
    (now - t = 86400000 * 29 → formatDate h loc now (DateField.str s) = lit "4 weeks ago") ∧
    (now - t = 86400000 * 30 → formatDate h loc now (DateField.str s) = loc t) := by
  have hf := formatDate_of_parsed h loc now s t hs hna hp
  have hd : (1000 * 60 * 60 * 24 : ℚ) = 86400000 := by norm_num
  rw [hd] at hf
  have hex : ∀ k : Nat, now - t = 86400000 * (k : Int) →
      ⌈((now - t).natAbs : ℚ) / 86400000⌉₊ = k := by
    intro k hk
    have := ceil_of_whole_days now t k hk
    rwa [hd] at this
  refine ⟨?_, ?_, ?_, ?_, ?_, ?_⟩
  · intro n hn
    rw [hf, ← hn]
    refine ⟨?_, ?_, ?_, ?_⟩
    · intro h1
      rw [if_neg (by omega), if_pos h1]
    · intro h2 h6
      rw [if_neg (by omega), if_neg (by omega), if_pos (by omega)]
    · intro h7 h29
      rw [if_neg (by omega), if_neg (by omega), if_neg (by omega), if_pos (by omega)]
    · intro h30
      rw [if_neg (by omega), if_neg (by omega), if_neg (by omega), if_neg (by omega)]
  · intro hk
    rw [hf, hex 1 hk]
    rfl
  · intro hk
    rw [hf, hex 6 hk]
    rfl
  · intro hk
    rw [hf, hex 7 hk]
    rfl
  · intro hk
    rw [hf, hex 29 hk]
    rfl
  · intro hk
    rw [hf, hex 30 hk]
    rfl

theorem formatDate_labels_witness :
    lit "2024-04-30T12:00:00.000Z" ≠ [] ∧ lit "2024-04-30T12:00:00.000Z" ≠ lit "N/A" ∧
    isoHost.dateParse (lit "2024-04-30T12:00:00.000Z") = some 1714478400000 ∧
    (1714564800000 : Int) - 1714478400000 = 86400000 * 1 ∧
    formatDate isoHost usLocaleDate 1714564800000
      (DateField.str (lit "2024-04-30T12:00:00.000Z")) = lit "Yesterday" :=
  ⟨by decide, by decide, by decide, by decide,
    (formatDate_labels isoHost usLocaleDate 1714564800000 (lit "2024-04-30T12:00:00.000Z")
      1714478400000 (by decide) (by decide) (by decide)).2.1 (by decide)⟩

/-- A posted date up to one day away from the current time, but not equal to it, is
labelled `Yesterday`, wherever it falls in the calendar. -/
theorem formatDate_within_day (h : Host) (loc : Int → JSString) (now : Int) (s : JSString)
    (t : Int) (hs : s ≠ []) (hna : s ≠ lit "N/A") (hp : h.dateParse s = some t)
    (hne : now ≠ t) (hle : (now - t).natAbs ≤ 86400000) :
    formatDate h loc now (DateField.str s) = lit "Yesterday" := by
  have hpos : 0 < (now - t).natAbs := Int.natAbs_pos.mpr (sub_ne_zero.mpr hne)
  rw [formatDate_of_parsed h loc now s t hs hna hp, ceil_within_day _ hpos hle]
  rfl

/-- The label `Today` is given exactly when the posted date equals the current time to
the millisecond. -/
theorem formatDate_today_iff (h : Host) (loc : Int → JSString) (now : Int) (s : JSString)
    (t : Int) (hs : s ≠ []) (hna : s ≠ lit "N/A") (hp : h.dateParse s = some t)
    (hloc : loc t ≠ lit "Today") :
    formatDate h loc now (DateField.str s) = lit "Today" ↔ now = t := by
  rw [formatDate_of_parsed h loc now s t hs hna hp]
  constructor
  · intro hf
    by_contra hne
    have hpos : 0 < (now - t).natAbs := Int.natAbs_pos.mpr (sub_ne_zero.mpr hne)
    have hc : ⌈((now - t).natAbs : ℚ) / (1000 * 60 * 60 * 24)⌉₊ ≠ 0 := by
      rw [Ne, Nat.ceil_eq_zero, not_le]
      have : (0 : ℚ) < (now - t).natAbs := by exact_mod_cast hpos
      positivity
    rw [if_neg hc] at hf
    split_ifs at hf with h1 h7 h30
    · exact absurd hf (by decide)
    · have := congrArg List.getLast? hf
      simp [lit] at this
    · have := congrArg List.getLast? hf
      simp [lit] at this
    · exact hloc hf
  · intro heq
    have hz : ⌈((now - t).natAbs : ℚ) / (1000 * 60 * 60 * 24)⌉₊ = 0 := by
      rw [heq]
      simp
    rw [if_pos hz]

/-- A non-empty string other than `N/A` that the host does not parse is labelled
`Invalid Date`. -/
theorem formatDate_of_unparsed (h : Host) (loc : Int → JSString) (now : Int) (s : JSString)
    (hs : s ≠ []) (hna : s ≠ lit "N/A") (hp : h.dateParse s = none) :
    formatDate h loc now (DateField.str s) = lit "Invalid Date" := by
  have ht : truthy s = true := (truthy_eq_true_iff s).mpr hs
  have hne : (DateField.str s == DateField.str (lit "N/A")) = false := by
    rw [beq_eq_false_iff_ne]
    intro heq
    exact hna (DateField.str.inj heq)
  unfold formatDate
  simp only [DateField.truthy, ht, hne, Bool.not_true, Bool.or_self, Bool.false_eq_true,
    if_false, newDate, hp, diffDays, toLocaleDateString]

/-- A missing posted date (`undefined`, `null`, the empty string or `N/A`) is labelled
`Recently`. -/
theorem formatDate_of_missing (h : Host) (loc : Int → JSString) (now : Int) :
    formatDate h loc now DateField.undefined = lit "Recently" ∧
    formatDate h loc now DateField.null = lit "Recently" ∧
    formatDate h loc now (DateField.str []) = lit "Recently" ∧
    formatDate h loc now (DateField.str (lit "N/A")) = lit "Recently" :=
  ⟨rfl, rfl, rfl, rfl⟩

/-- C14 fails on the code: with the current time 2024-05-01T12:07:00.000Z, a listing
posted a millisecond earlier and a listing posted an hour earlier, both on the same
calendar day, are labelled `Yesterday`; only a listing posted at the very millisecond
of the current time is labelled `Today`. -/
theorem posted_today_is_labelled_yesterday :
    isoHost.dateParse (lit "2024-05-01T12:07:00.000Z") = some 1714565220000 ∧
    usLocaleDate 1714565219999 = usLocaleDate 1714565220000 ∧
    usLocaleDate 1714561620000 = usLocaleDate 1714565220000 ∧
    formatDate isoHost usLocaleDate 1714565220000
      (DateField.str (lit "2024-05-01T12:06:59.999Z")) = lit "Yesterday" ∧
    formatDate isoHost usLocaleDate 1714565220000
      (DateField.str (lit "2024-05-01T11:07:00.000Z")) = lit "Yesterday" ∧
    formatDate isoHost usLocaleDate 1714565220000
      (DateField.str (lit "2024-05-01T12:07:00.000Z")) = lit "Today" :=
  ⟨by decide, by decide, by decide,
    formatDate_within_day isoHost usLocaleDate 1714565220000 _ 1714565219999
      (by decide) (by decide) (by decide) (by decide) (by decide),
    formatDate_within_day isoHost usLocaleDate 1714565220000 _ 1714561620000
      (by decide) (by decide) (by decide) (by decide) (by decide),
    (formatDate_today_iff isoHost usLocaleDate 1714565220000 _ 1714565220000
      (by decide) (by decide) (by decide) (by decide)).mpr rfl⟩

/-- C15 fails on the code: the posted date `soon`, which is not a date, is labelled
`Invalid Date` and not `Recently`, at every current time and in every locale (the
missing values `undefined`, `null`, the empty string and `N/A` are labelled
`Recently`). -/
theorem unparsable_date_is_labelled_invalid (loc : Int → JSString) (now : Int) :
    isoHost.dateParse (lit "soon") = none ∧
    formatDate isoHost loc now (DateField.str (lit "soon")) = lit "Invalid Date" ∧
    formatDate isoHost loc now (DateField.str (lit "soon")) ≠ lit "Recently" ∧
    formatDate isoHost loc now DateField.undefined = lit "Recently" ∧
    formatDate isoHost loc now DateField.null = lit "Recently" ∧
    formatDate isoHost loc now (DateField.str []) = lit "Recently" ∧
    formatDate isoHost loc now (DateField.str (lit "N/A")) = lit "Recently" := by
  have hf := formatDate_of_unparsed isoHost loc now (lit "soon") (by decide) (by decide)
    (by decide)
  refine ⟨by decide, hf, ?_, rfl, rfl, rfl, rfl⟩
  rw [hf]
  decide

/-! ## Job cards: lemmas -/

theorem lit_append (a b : String) : lit (a ++ b) = lit a ++ lit b := by
  simp [lit, String.toList]

theorem escapeUnit_no_angle (c : Nat) : 60 ∉ escapeUnit c ∧ 62 ∉ escapeUnit c := by
  unfold escapeUnit
  split_ifs with h1 h2 h3 h4
  · decide
  · decide
  · decide
  · decide
  · simp only [List.mem_singleton]
    omega

/-- The escaped text holds neither `<` nor `>`. -/
theorem escapeHtml_no_angle (text : JSString) :
    60 ∉ escapeHtml text ∧ 62 ∉ escapeHtml text := by
  unfold escapeHtml
  split
  · simp
  · simp only [List.mem_flatten, List.mem_map, not_exists, not_and]
    constructor
    · rintro l ⟨c, _, rfl⟩
      exact (escapeUnit_no_angle c).1
    · rintro l ⟨c, _, rfl⟩
      exact (escapeUnit_no_angle c).2

/-- A double quote of the text is still in the escaped text. -/
theorem escapeHtml_keeps_quote (text : JSString) (hq : 34 ∈ text) : 34 ∈ escapeHtml text := by
  have ht : truthy text = true := (truthy_eq_true_iff text).mpr (List.ne_nil_of_mem hq)
  unfold escapeHtml
  simp only [ht, Bool.not_true, Bool.false_eq_true, if_false, List.mem_flatten, List.mem_map]
  exact ⟨escapeUnit 34, ⟨34, hq, rfl⟩, by decide⟩

theorem suffix_append_left {x r : JSString} (a : JSString) (hx : x <:+ r) : x <:+ a ++ r :=
  hx.trans (List.suffix_append a r)

/-- Every card ends with the link element, whose `href` holds the escaped apply link
between double quotes. -/
theorem createJobCard_link (h : Host) (loc : Int → JSString) (now : Int) (job : Job) :
    (lit "<a href=\"" ++ (escapeHtml job.apply_link ++
      lit "\" target=\"_blank\" class=\"apply-btn\">Apply Now</a>\n        </div>\n    "))
      <:+ createJobCard h loc now job := by
  unfold createJobCard cardChunks
  simp only [List.map_append, List.flatten_append, List.map_cons, List.map_nil,
    List.flatten_cons, List.flatten_nil, Chunk.text, List.append_assoc, List.append_nil,
    lit_append]
  repeat (first | exact List.suffix_rfl | apply suffix_append_left)

/-! ## Claims on job cards -/

/-- C16 fails on the code: for a listing whose apply link is
`https://example.org/" onmouseover="alert(1)`, `escapeHtml` returns the link unchanged,
double quotes included, and the markup of the card, at every time and for every host,
ends with a link element whose `href` attribute is closed by the first of these quotes
and followed by an `onmouseover` attribute. -/
theorem quoted_link_ends_href (h : Host) (loc : Int → JSString) (now : Int) :
    escapeHtml quotedLinkJob.apply_link = lit "https://example.org/\" onmouseover=\"alert(1)" ∧
    34 ∈ escapeHtml quotedLinkJob.apply_link ∧
    lit ("<a href=\"https://example.org/\" onmouseover=\"alert(1)\" target=\"_blank\" " ++
      "class=\"apply-btn\">Apply Now</a>\n        </div>\n    ")
      <:+ createJobCard h loc now quotedLinkJob := by
  have e : escapeHtml quotedLinkJob.apply_link =
      lit "https://example.org/\" onmouseover=\"alert(1)" := by decide
  have e2 : lit "<a href=\"" ++ (lit "https://example.org/\" onmouseover=\"alert(1)" ++
      lit "\" target=\"_blank\" class=\"apply-btn\">Apply Now</a>\n        </div>\n    ") =
      lit ("<a href=\"https://example.org/\" onmouseover=\"alert(1)\" target=\"_blank\" " ++
        "class=\"apply-btn\">Apply Now</a>\n        </div>\n    ") := by decide
  have hl := createJobCard_link h loc now quotedLinkJob
  rw [e, e2] at hl
  exact ⟨e, escapeHtml_keeps_quote _ (by decide), hl⟩

/-! ## Claims on the notification preference -/

/-- On a boolean `notifications_enabled` the two pages agree: the toggle is checked
exactly when the home page requests the recommended jobs. -/
theorem notification_predicates_agree_on_bool (b : Bool) (u : User)
    (hu : u.notifications_enabled = JSValue.bool b) (r : RecommendedReply)
    (p : SettingsPage) (s : HomeSession) (hs : s.currentUser = some u) :
    (Settings.checkAuthentication (SessionReply.json ⟨true, some u⟩) p).notificationsToggle = b ∧
    (loadRecommendedJobs r s).recommendedRequests =
      (if b = true then s.recommendedRequests + 1 else s.recommendedRequests) := by
  refine ⟨?_, ?_⟩
  · cases b <;> simp [Settings.checkAuthentication, hu, JSValue.strictNeFalse]
  · cases b
    · simp [loadRecommendedJobs, hs, hu, JSValue.truthy]
    · cases r with
      | transportFailure => simp [loadRecommendedJobs, hs, hu, JSValue.truthy]
      | json data =>
        cases hj : data.jobs with
        | none => simp [loadRecommendedJobs, hs, hu, JSValue.truthy, hj]
        | some jobs =>
          by_cases hc : (data.success && decide (jobs.length > 0)) = true <;>
            simp [loadRecommendedJobs, hs, hu, JSValue.truthy, hj, hc]

/-- C17 fails on the code: for a user whose `notifications_enabled` is `null`, missing
(`undefined`) or the number `0`, the settings page checks the notifications toggle
while the home page, whatever the network would answer, skips the request for
recommended jobs. -/
theorem notification_predicates_disagree (r : RecommendedReply) :
    ((Settings.checkAuthentication (SessionReply.json ⟨true, some (sampleUser JSValue.null)⟩)
        SettingsPage.initial).notificationsToggle = true ∧
      (loadRecommendedJobs r ⟨some (sampleUser JSValue.null), none, 0⟩).recommendedRequests
        = 0) ∧
    ((Settings.checkAuthentication
        (SessionReply.json ⟨true, some (sampleUser JSValue.undefined)⟩)
        SettingsPage.initial).notificationsToggle = true ∧
      (loadRecommendedJobs r
        ⟨some (sampleUser JSValue.undefined), none, 0⟩).recommendedRequests = 0) ∧
    ((Settings.checkAuthentication
        (SessionReply.json ⟨true, some (sampleUser (JSValue.number 0))⟩)
        SettingsPage.initial).notificationsToggle = true ∧
      (loadRecommendedJobs r
        ⟨some (sampleUser (JSValue.number 0)), none, 0⟩).recommendedRequests = 0) :=
  ⟨⟨rfl, rfl⟩, ⟨rfl, rfl⟩, ⟨rfl, rfl⟩⟩

end JobSphere
